import Mathlib

/-!
# QtOpcUa, open62541 plugin: `Open62541AsyncBackend`

A shallow embedding of `src/plugins/opcua/open62541/qopen62541backend.cpp`.

* Status codes, node attributes and value types are the numeric values of the
  C++ enums (`static_cast` between the Qt and open62541 enums keeps the number).
* The open62541 client library is the transport.  For the request/response
  services it is a function from the request to the response; for the
  subscription services it is a state machine `Transport τ` whose answers may
  depend on everything that happened before.
* Qt signals are collected, in emission order, in a list of `Signal`s, and the
  transport calls made in a list of `TransportCall`s.
* The value converter (`QOpen62541ValueConverter`, `Open62541Utils`) is a
  parameter `vc`: the properties below hold for every converter.
* A pointer to a subscription object is the id the object is stored under in
  `m_subscriptions`; intervals (C++ `double`, milliseconds) are integers, only
  their order and equality being used.
* The client state callback is an operation of its own (`clientStateCallback`);
  it is not run from inside a transport call.
-/

set_option autoImplicit false

namespace QOpcUa

/-- Numeric value of `QOpcUa::UaStatusCode` / `UA_StatusCode`. -/
abbrev UaStatusCode := Nat

def UaStatusCode.Good : UaStatusCode := 0x00000000
def UaStatusCode.BadInternalError : UaStatusCode := 0x80020000
def UaStatusCode.BadServerNotConnected : UaStatusCode := 0x800D0000
def UaStatusCode.BadNothingToDo : UaStatusCode := 0x800F0000
def UaStatusCode.BadUserAccessDenied : UaStatusCode := 0x801F0000
def UaStatusCode.BadSubscriptionIdInvalid : UaStatusCode := 0x80280000
def UaStatusCode.BadMonitoredItemIdInvalid : UaStatusCode := 0x80420000
def UaStatusCode.BadEntryExists : UaStatusCode := 0x807F0000

/-- Numeric value of `QOpcUa::NodeAttribute`: `None` is 0, the others one bit each. -/
abbrev NodeAttribute := Nat

def NodeAttribute.None : NodeAttribute := 0
def NodeAttribute.NodeId : NodeAttribute := 2 ^ 0
def NodeAttribute.NodeClass : NodeAttribute := 2 ^ 1
def NodeAttribute.BrowseName : NodeAttribute := 2 ^ 2
def NodeAttribute.DisplayName : NodeAttribute := 2 ^ 3
def NodeAttribute.Value : NodeAttribute := 2 ^ 12
def NodeAttribute.UserExecutable : NodeAttribute := 2 ^ 21

/-- The flag set `QOpcUa::NodeAttributes`: a bit mask of `NodeAttribute`s. -/
abbrev NodeAttributes := Nat

/-- Numeric value of `QOpcUa::Types`. -/
abbrev Types := Nat

def Types.Undefined : Types := 0xFFFFFFFF

/-- Modelled from the spec: `qt_forEachAttribute` (declared in `qopcuatype.h`, which is
not embedded here) expands an attribute set into its members, one at a time, in
ascending bit order; the enum has 22 one-bit members. The list is the sequence of
attributes the callback is invoked with. -/
def qt_forEachAttribute (attr : NodeAttributes) : List NodeAttribute :=
  (List.range 22).filterMap (fun i => if attr.testBit i then some (2 ^ i) else none)

end QOpcUa

open QOpcUa

/-! ## Values and wire types -/

/-- The dynamic value `QVariant`: invalid (default constructed), a scalar payload, or
a `QVariantList`. -/
inductive QVariant where
  | invalid : QVariant
  | scalar (payload : Int) : QVariant
  | list (items : List QVariant) : QVariant

/-- The wire value `UA_Variant`: a type tag and the data pointer (`none` when null). -/
structure UA_Variant where
  type : Nat
  data : Option (List Int)
deriving DecidableEq, Repr

structure UA_NodeId where
  namespaceIndex : Nat
  identifier : Nat
deriving DecidableEq, Repr

/-- A `UA_String`: `length` bytes at the data pointer. `data` lists the bytes found in
memory from the data pointer on (none for a null pointer): the string is the first
`length` of them, what follows them is the memory behind the string. -/
structure UA_String where
  length : Nat
  data : List Nat
deriving DecidableEq, Repr

/-- The bytes a read of the data pointer as a NUL-terminated C string yields: those up to
the first zero byte, whatever `length` says (the string is cut at a zero byte it
contains, and read beyond its end when no zero byte ends it). Memory is modelled as far
as `data` lists it; a read that meets no zero byte in it leaves the modelled memory,
which C leaves undefined, and yields all of `data` here. -/
def UA_String.cString (s : UA_String) : List Nat :=
  s.data.takeWhile (fun b => decide (b ≠ 0))

structure UA_ExpandedNodeId where
  nodeId : UA_NodeId
  namespaceUri : UA_String
  serverIndex : Nat
deriving DecidableEq, Repr

structure QExpandedNodeId where
  nodeId : String
  namespaceUri : String
  serverIndex : Nat
deriving DecidableEq, Repr

/-- The conversions of `QOpen62541ValueConverter`, `Open62541Utils` and
`attributeIdToTypeId`, none of which is defined in `qopen62541backend.cpp`: they are taken
as parameters. -/
structure QOpen62541ValueConverter where
  toUaAttributeId : NodeAttribute → Nat
  toQVariant : UA_Variant → QVariant
  toOpen62541Variant : QVariant → Types → UA_Variant
  dateTimeToQt : Int → Int
  expandedNodeIdToQt : UA_ExpandedNodeId → QExpandedNodeId
  nodeIdToQString : UA_NodeId → String
  qualifiedNameToQt : Nat × String → Nat × String
  localizedTextToQt : String × String → String × String
  attributeIdToTypeId : NodeAttribute → Types

/-! ## Read and write -/

structure UA_ReadValueId where
  nodeId : UA_NodeId
  attributeId : Nat
  indexRange : String
deriving DecidableEq, Repr

structure UA_ReadRequest where
  nodesToRead : List UA_ReadValueId
  timestampsToReturn : Nat
deriving DecidableEq, Repr

def UA_TIMESTAMPSTORETURN_BOTH : Nat := 2

structure UA_DataValue where
  hasValue : Bool
  hasStatus : Bool
  hasSourceTimestamp : Bool
  hasServerTimestamp : Bool
  value : UA_Variant
  status : UaStatusCode
  sourceTimestamp : Int
  serverTimestamp : Int
deriving DecidableEq, Repr

/-- A read response: `resultsSize` is the length of `results`. -/
structure UA_ReadResponse where
  serviceResult : UaStatusCode
  results : List UA_DataValue
deriving DecidableEq, Repr

/-- Type `QOpcUaReadResult`; a null `QDateTime` is `none`. -/
structure QOpcUaReadResult where
  attributeId : NodeAttribute
  value : QVariant
  statusCode : UaStatusCode
  sourceTimestamp : Option Int
  serverTimestamp : Option Int

/-- A default constructed `QOpcUaReadResult`. -/
def QOpcUaReadResult.empty : QOpcUaReadResult :=
  { attributeId := NodeAttribute.None, value := QVariant.invalid,
    statusCode := UaStatusCode.Good, sourceTimestamp := none, serverTimestamp := none }

structure UA_WriteValue where
  nodeId : UA_NodeId
  attributeId : Nat
  indexRange : String
  value : UA_Variant
  hasValue : Bool
deriving DecidableEq, Repr

structure UA_WriteRequest where
  nodesToWrite : List UA_WriteValue
deriving DecidableEq, Repr

/-- A write response: `resultsSize` is the length of `results`. -/
structure UA_WriteResponse where
  serviceResult : UaStatusCode
  results : List UaStatusCode
deriving DecidableEq, Repr

/-! ## Browse -/

structure UA_ReferenceDescription where
  nodeId : UA_ExpandedNodeId
  typeDefinition : UA_ExpandedNodeId
  referenceTypeId : UA_NodeId
  nodeClass : Nat
  browseName : Nat × String
  displayName : String × String
  isForward : Bool
deriving DecidableEq, Repr

structure QOpcUaReferenceDescription where
  targetNodeId : QExpandedNodeId
  typeDefinition : QExpandedNodeId
  refTypeId : String
  nodeClass : Nat
  browseName : Nat × String
  displayName : String × String
  isForward : Bool
deriving DecidableEq, Repr

/-- One browse result; `continuationPoint.length` is the byte string's length and
`referencesSize` the length of `references`. -/
structure UA_BrowseResult where
  statusCode : UaStatusCode
  continuationPoint : List Nat
  references : List UA_ReferenceDescription
deriving DecidableEq, Repr

/-- A browse or browse-next response: `resultsSize` is the length of `results`, and
`res->results` points at the first of them. -/
structure UA_BrowseResponse where
  serviceResult : UaStatusCode
  results : List UA_BrowseResult
deriving DecidableEq, Repr

/-- The round was answered with a result, and both its service-level status and the
status of that result are `Good`. -/
def UA_BrowseResponse.isGood (r : UA_BrowseResponse) : Bool :=
  match r.results with
  | [] => false
  | r0 :: _ => decide (r.serviceResult = UaStatusCode.Good ∧ r0.statusCode = UaStatusCode.Good)

/-- The round carries a non-empty continuation point. -/
def UA_BrowseResponse.hasContinuationPoint (r : UA_BrowseResponse) : Bool :=
  match r.results with
  | [] => false
  | r0 :: _ => decide (r0.continuationPoint.length ≠ 0)

/-- The references of the round (those of its result; none when there is no result). -/
def UA_BrowseResponse.references (r : UA_BrowseResponse) : List UA_ReferenceDescription :=
  match r.results with
  | [] => []
  | r0 :: _ => r0.references

structure QOpcUaBrowseRequest where
  browseDirection : Nat
  includeSubtypes : Bool
  nodeClassMask : Nat
  referenceTypeId : String
deriving DecidableEq, Repr

/-! ## Browse paths -/

structure QRelativePathElement where
  referenceTypeId : String
  includeSubtypes : Bool
  isInverse : Bool
  targetName : Nat × String
deriving DecidableEq, Repr

structure UA_RelativePathElement where
  referenceTypeId : UA_NodeId
  isInverse : Bool
  includeSubtypes : Bool
  targetName : Nat × String
deriving DecidableEq, Repr

structure UA_BrowsePath where
  startingNode : UA_NodeId
  elements : List UA_RelativePathElement
deriving DecidableEq, Repr

structure UA_TranslateBrowsePathsToNodeIdsRequest where
  browsePaths : List UA_BrowsePath
deriving DecidableEq, Repr

structure UA_BrowsePathTarget where
  targetId : UA_ExpandedNodeId
  remainingPathIndex : Nat
deriving DecidableEq, Repr

/-- One browse path result; `targetsSize` is the length of `targets`. -/
structure UA_BrowsePathResult where
  statusCode : UaStatusCode
  targets : List UA_BrowsePathTarget
deriving DecidableEq, Repr

/-- A translate response: `resultsSize` is the length of `results`. -/
structure UA_TranslateBrowsePathsToNodeIdsResponse where
  serviceResult : UaStatusCode
  results : List UA_BrowsePathResult
deriving DecidableEq, Repr

structure QBrowsePathTarget where
  targetId : QExpandedNodeId
  remainingPathIndex : Nat
deriving DecidableEq, Repr

/-! ## Signals and transport calls -/

/-- The signals the backend emits. Monitoring parameters are represented by the status
code they carry. -/
inductive Signal where
  | attributesRead (handle : Nat) (results : List QOpcUaReadResult) (serviceResult : UaStatusCode)
  | attributeWritten (handle : Nat) (attrId : NodeAttribute) (value : QVariant)
      (status : UaStatusCode)
  | monitoringEnableDisable (handle : Nat) (attrId : NodeAttribute) (subscribe : Bool)
      (status : UaStatusCode)
  | monitoringStatusChanged (handle : Nat) (attrId : NodeAttribute) (item : Nat)
      (status : UaStatusCode)
  | methodCallFinished (handle : Nat) (methodNodeId : String) (result : QVariant)
      (status : UaStatusCode)
  | browseFinished (handle : Nat) (children : List QOpcUaReferenceDescription)
      (status : UaStatusCode)
  | stateAndOrErrorChanged (state : Nat) (error : Nat)
  | resolveBrowsePathFinished (handle : Nat) (targets : List QBrowsePathTarget)
      (path : List QRelativePathElement) (status : UaStatusCode)

/-- The calls into the open62541 client library. -/
inductive TransportCall where
  | service_read (req : UA_ReadRequest)
  | service_write (req : UA_WriteRequest)
  | client_call (objectId methodId : UA_NodeId) (inputs : List UA_Variant)
  | service_browse (nodeId : UA_NodeId) (request : QOpcUaBrowseRequest)
  | service_browseNext (continuationPoint : List Nat)
  | runAsync
  | subscriptions_create
  | subscriptions_delete (subscriptionId : Nat)
  | monitoredItems_create (subscriptionId handle : Nat) (attrId : NodeAttribute)
  | monitoredItems_delete (subscriptionId handle : Nat) (attrId : NodeAttribute)
  | monitoredItems_modify (subscriptionId handle : Nat) (attrId : NodeAttribute)
  | client_connect
  | client_disconnect
  | service_translateBrowsePathsToNodeIds (req : UA_TranslateBrowsePathsToNodeIdsRequest)
deriving DecidableEq, Repr

/-- What a request/response operation did: the signals emitted and the transport calls
made, both in order. -/
structure Emitted where
  signals : List Signal
  calls : List TransportCall

/-! ## Subscriptions -/

/-- A `QHash`, as the list of its entries. `find` returns the first entry of a key,
`insert` and `remove` drop every entry of the key, so a list behaves like the hash
holding, for each key, its first entry. -/
abbrev QHash (κ ν : Type) := List (κ × ν)

namespace QHash

variable {κ ν : Type} [DecidableEq κ]

def find : QHash κ ν → κ → Option ν
  | [], _ => none
  | (k, v) :: m, key => if k = key then some v else find m key

def remove (m : QHash κ ν) (key : κ) : QHash κ ν :=
  List.filter (fun e => decide (e.1 ≠ key)) m

def insert (m : QHash κ ν) (key : κ) (value : ν) : QHash κ ν :=
  (key, value) :: remove m key

/-- Change, in place, the value stored under `key`. -/
def modify (m : QHash κ ν) (key : κ) (f : ν → ν) : QHash κ ν :=
  List.map (fun e => if e.1 = key then (e.1, f e.2) else e) m

end QHash

inductive SubscriptionType where
  | Shared
  | Exclusive
deriving DecidableEq, Repr

/-- The fields of `QOpcUaMonitoringParameters` the backend reads. Intervals are
milliseconds. -/
structure QOpcUaMonitoringParameters where
  subscriptionId : Nat
  publishingInterval : Int
  samplingInterval : Int
  shared : SubscriptionType
deriving DecidableEq, Repr

/-- A monitored item is keyed by (client handle, attribute). -/
abbrev MonitoredItemKey := Nat × NodeAttribute

/-- Modelled from the spec: `QOpen62541Subscription` (defined in another file) is
(server assigned id, revised interval, sharing mode, set of monitored items). The
server assigned id is the key the object is stored under in `m_subscriptions`, and a
pointer to the object is modelled by that id. An id with no object stored under it is a
dangling pointer: C++ leaves operations through it undefined, and here they find no
object, change nothing and count zero items. -/
structure QOpen62541Subscription where
  interval : Int
  shared : SubscriptionType
  items : List MonitoredItemKey
deriving DecidableEq, Repr

/-- The helpers of the base class and of Qt that `getSubscription` uses and which are
defined elsewhere: taken as parameters. -/
structure QOpcUaBackend where
  revisePublishingInterval : Int → Int → Int
  qFuzzyCompare : Int → Int → Bool

/-- The subscription services of the open62541 client: a state machine over `τ`, each
call returning its answer and the next state. -/
structure Transport (τ : Type) where
  /-- Call `UA_Client_runAsync`: the status returned. -/
  runAsync : τ → UaStatusCode × τ
  /-- Create a subscription: the id assigned (0 when it failed) and the revised interval. -/
  createSubscription : τ → QOpcUaMonitoringParameters → (Nat × Int) × τ
  deleteSubscription : τ → Nat → τ
  createMonitoredItem : τ → Nat → Nat → NodeAttribute → UA_NodeId → QOpcUaMonitoringParameters →
    UaStatusCode × τ
  deleteMonitoredItem : τ → Nat → Nat → NodeAttribute → UaStatusCode × τ
  /-- Modify a monitoring parameter: the status and, when the publishing interval was
  revised, the new interval. -/
  modifyMonitoredItem : τ → Nat → Nat → NodeAttribute → Nat → QVariant →
    (UaStatusCode × Option Int) × τ
  /-- Call `UA_Client_connect` / `UA_Client_connect_username` (the flag tells which). -/
  connect : τ → Bool → UaStatusCode × τ
  disconnect : τ → UaStatusCode × τ

def UA_CLIENTSTATE_DISCONNECTED : Nat := 0

namespace QOpcUaClient
def Disconnected : Nat := 0
def Connected : Nat := 2
def NoError : Nat := 0
def AccessDenied : Nat := 2
def ConnectionError : Nat := 3
def UnknownError : Nat := 4
end QOpcUaClient

/-- The state of `Open62541AsyncBackend`, together with the state of the transport and
the signals emitted and transport calls made so far. `m_uaclient` tells whether the
client pointer is non-null, `m_subscriptionTimer` whether the single-shot timer is
armed. -/
structure Open62541AsyncBackend (τ : Type) where
  m_uaclient : Bool
  m_useStateCallback : Bool
  m_subscriptionTimer : Bool
  m_sendPublishRequests : Bool
  m_minPublishingInterval : Int
  m_subscriptions : QHash Nat QOpen62541Subscription
  m_attributeMapping : QHash Nat (QHash NodeAttribute Nat)
  transport : τ
  signals : List Signal
  calls : List TransportCall

namespace Open62541AsyncBackend

/-! ### `readAttributes` -/

/-- Body of the result loop of `readAttributes` for index `i`. -/
def readResult (vc : QOpen62541ValueConverter) (res : UA_ReadResponse) (i : Nat)
    (r : QOpcUaReadResult) : QOpcUaReadResult :=
  match res.results[i]? with
  | none => { r with statusCode := res.serviceResult }
  | some d =>
    let r := { r with statusCode := if d.hasStatus then d.status else UaStatusCode.Good }
    let r := if d.hasValue && d.value.data.isSome then { r with value := vc.toQVariant d.value } else r
    let r := if d.hasServerTimestamp then
      { r with sourceTimestamp := some (vc.dateTimeToQt d.sourceTimestamp) } else r
    if d.hasSourceTimestamp then
      { r with serverTimestamp := some (vc.dateTimeToQt d.serverTimestamp) } else r

/-- The read value id pushed for attribute `attrId`. -/
def readValueId (vc : QOpen62541ValueConverter) (id : UA_NodeId) (indexRange : String)
    (attrId : NodeAttribute) : UA_ReadValueId :=
  { nodeId := id, attributeId := vc.toUaAttributeId attrId,
    indexRange := if indexRange.length ≠ 0 then indexRange else "" }

/-- Function `Open62541AsyncBackend::readAttributes`; `UA_Client_Service_read` is the transport. -/
def readAttributes (vc : QOpen62541ValueConverter)
    (UA_Client_Service_read : UA_ReadRequest → UA_ReadResponse)
    (handle : Nat) (id : UA_NodeId) (attr : NodeAttributes) (indexRange : String) : Emitted :=
  let valueIds := (qt_forEachAttribute attr).map (readValueId vc id indexRange)
  let vec := (qt_forEachAttribute attr).map
    (fun attrId => { QOpcUaReadResult.empty with attributeId := attrId })
  let req : UA_ReadRequest :=
    { nodesToRead := valueIds, timestampsToReturn := UA_TIMESTAMPSTORETURN_BOTH }
  let res := UA_Client_Service_read req
  let vec := vec.mapIdx (readResult vc res)
  { signals := [Signal.attributesRead handle vec res.serviceResult],
    calls := [TransportCall.service_read req] }

/-! ### `writeAttribute`, `writeAttributes` -/

/-- Function `Open62541AsyncBackend::writeAttribute`. -/
def writeAttribute (vc : QOpen62541ValueConverter)
    (UA_Client_Service_write : UA_WriteRequest → UA_WriteResponse)
    (handle : Nat) (id : UA_NodeId) (attrId : NodeAttribute) (value : QVariant) (type : Types)
    (indexRange : String) : Emitted :=
  let type := if type = Types.Undefined ∧ attrId ≠ NodeAttribute.Value
    then vc.attributeIdToTypeId attrId else type
  let req : UA_WriteRequest :=
    { nodesToWrite := [{ nodeId := id, attributeId := vc.toUaAttributeId attrId,
                         indexRange := if indexRange.length ≠ 0 then indexRange else "",
                         value := vc.toOpen62541Variant value type, hasValue := true }] }
  let res := UA_Client_Service_write req
  let status := match res.results with
    | [] => res.serviceResult
    | r0 :: _ => r0
  { signals := [Signal.attributeWritten handle attrId value status],
    calls := [TransportCall.service_write req] }

/-- The write value built for one entry of the attribute map. -/
def writeValue (vc : QOpen62541ValueConverter) (id : UA_NodeId) (valueAttributeType : Types)
    (entry : NodeAttribute × QVariant) : UA_WriteValue :=
  let type := if entry.1 = NodeAttribute.Value then valueAttributeType
    else vc.attributeIdToTypeId entry.1
  { nodeId := id, attributeId := vc.toUaAttributeId entry.1, indexRange := "",
    value := vc.toOpen62541Variant entry.2 type, hasValue := false }

/-- Function `Open62541AsyncBackend::writeAttributes`; the attribute map `toWrite` is given as its
entries in iteration order. -/
def writeAttributes (vc : QOpen62541ValueConverter)
    (UA_Client_Service_write : UA_WriteRequest → UA_WriteResponse)
    (handle : Nat) (id : UA_NodeId) (toWrite : List (NodeAttribute × QVariant))
    (valueAttributeType : Types) : Emitted :=
  if toWrite.length = 0 then
    { signals := [Signal.attributeWritten handle NodeAttribute.None QVariant.invalid
        UaStatusCode.BadNothingToDo],
      calls := [] }
  else
    let req : UA_WriteRequest := { nodesToWrite := toWrite.map (writeValue vc id valueAttributeType) }
    let res := UA_Client_Service_write req
    { signals := toWrite.mapIdx (fun index entry =>
        Signal.attributeWritten handle entry.1 entry.2
          (match res.results[index]? with
           | some r => r
           | none => res.serviceResult)),
      calls := [TransportCall.service_write req] }

/-! ### `callMethod` -/

/-- Function `Open62541AsyncBackend::callMethod`; `UA_Client_call` returns the status and the
output arguments (`outputSize` is their number). -/
def callMethod (vc : QOpen62541ValueConverter)
    (UA_Client_call : UA_NodeId → UA_NodeId → List UA_Variant → UaStatusCode × List UA_Variant)
    (handle : Nat) (objectId methodId : UA_NodeId) (args : List (QVariant × Types)) : Emitted :=
  let inputArgs := args.map (fun a => vc.toOpen62541Variant a.1 a.2)
  let out := UA_Client_call objectId methodId inputArgs
  let res := out.1
  let outputArguments := out.2
  let outputSize := outputArguments.length
  let result : QVariant :=
    if outputSize > 1 ∧ res = UaStatusCode.Good then
      QVariant.list (outputArguments.map vc.toQVariant)
    else if outputSize = 1 ∧ res = UaStatusCode.Good then
      match outputArguments with
      | o :: _ => vc.toQVariant o
      | [] => QVariant.invalid
    else QVariant.invalid
  { signals := [Signal.methodCallFinished handle (vc.nodeIdToQString methodId) result res],
    calls := [TransportCall.client_call objectId methodId inputArgs] }

/-! ### `browse` -/

/-- Conversion of one reference description, as in the loop body of `convertBrowseResult`. -/
def convertReference (vc : QOpen62541ValueConverter) (src : UA_ReferenceDescription) :
    QOpcUaReferenceDescription :=
  { targetNodeId := vc.expandedNodeIdToQt src.nodeId,
    typeDefinition := vc.expandedNodeIdToQt src.typeDefinition,
    refTypeId := vc.nodeIdToQString src.referenceTypeId,
    nodeClass := src.nodeClass,
    browseName := vc.qualifiedNameToQt src.browseName,
    displayName := vc.localizedTextToQt src.displayName,
    isForward := src.isForward }

/-- Function `convertBrowseResult`: appends the first `referencesSize` references of `src` to `dst`. -/
def convertBrowseResult (vc : QOpen62541ValueConverter) (src : Option UA_BrowseResult)
    (referencesSize : Nat) (dst : List QOpcUaReferenceDescription) :
    List QOpcUaReferenceDescription :=
  match src with
  | none => dst
  | some s => dst ++ (s.references.take referencesSize).map (convertReference vc)

/-- The `while` loop of `browse`. `rounds i` is the response the server gives in round `i`
(round 0 answers the browse request, round `i + 1` the browse-next request sent after
round `i`); `response` is the response at hand, that of round `round`. One unit of `fuel`
is used per evaluation of the loop condition; `none` means the fuel ran out. -/
def browseLoop (vc : QOpen62541ValueConverter) (rounds : Nat → UA_BrowseResponse) :
    Nat → Nat → UA_BrowseResponse → List QOpcUaReferenceDescription → UaStatusCode →
    List TransportCall → Option (List QOpcUaReferenceDescription × UaStatusCode × List TransportCall)
  | 0, _, _, _, _, _ => none
  | fuel + 1, round, response, ret, statusCode, calls =>
    match response.results with
    | [] => some (ret, statusCode, calls)
    | r0 :: _ =>
      if statusCode ≠ UaStatusCode.Good then some (ret, statusCode, calls)
      else if response.serviceResult ≠ UaStatusCode.Good ∨ r0.statusCode ≠ UaStatusCode.Good then
        some (ret, r0.statusCode, calls)
      else
        let ret := convertBrowseResult vc (some r0) r0.references.length ret
        if r0.continuationPoint.length ≠ 0 then
          browseLoop vc rounds fuel (round + 1) (rounds (round + 1)) ret statusCode
            (calls ++ [TransportCall.service_browseNext r0.continuationPoint])
        else some (ret, statusCode, calls)

/-- Function `Open62541AsyncBackend::browse`. -/
def browse (vc : QOpen62541ValueConverter) (rounds : Nat → UA_BrowseResponse) (fuel : Nat)
    (handle : Nat) (id : UA_NodeId) (request : QOpcUaBrowseRequest) : Option Emitted :=
  match browseLoop vc rounds fuel 0 (rounds 0) [] UaStatusCode.Good
      [TransportCall.service_browse id request] with
  | none => none
  | some (ret, statusCode, calls) =>
    some { signals := [Signal.browseFinished handle ret statusCode], calls := calls }

/-! ### `resolveBrowsePath` -/

/-- The relative path element built for one element of the path; `nodeIdFromQString` is
the parser of `Open62541Utils`. -/
def relativePathElement (nodeIdFromQString : String → UA_NodeId) (e : QRelativePathElement) :
    UA_RelativePathElement :=
  { referenceTypeId := nodeIdFromQString e.referenceTypeId, isInverse := e.isInverse,
    includeSubtypes := e.includeSubtypes, targetName := e.targetName }

/-- Conversion of one browse path target, as in the loop body of `resolveBrowsePath`. The
namespace uri is `QString::fromUtf8` of the data pointer of the `UA_String`, read as a
NUL-terminated C string; `fromUtf8` is the decoder of Qt. -/
def convertBrowsePathTarget (vc : QOpen62541ValueConverter) (fromUtf8 : List Nat → String)
    (t : UA_BrowsePathTarget) : QBrowsePathTarget :=
  { remainingPathIndex := t.remainingPathIndex,
    targetId := { namespaceUri := fromUtf8 t.targetId.namespaceUri.cString,
                  serverIndex := t.targetId.serverIndex,
                  nodeId := vc.nodeIdToQString t.targetId.nodeId } }

/-- Function `Open62541AsyncBackend::resolveBrowsePath`. After the guard the response has
exactly one result, so the last case of the `match` is never taken. -/
def resolveBrowsePath (vc : QOpen62541ValueConverter) (nodeIdFromQString : String → UA_NodeId)
    (fromUtf8 : List Nat → String)
    (UA_Client_Service_translateBrowsePathsToNodeIds :
      UA_TranslateBrowsePathsToNodeIdsRequest → UA_TranslateBrowsePathsToNodeIdsResponse)
    (handle : Nat) (startNode : UA_NodeId) (path : List QRelativePathElement) : Emitted :=
  let req : UA_TranslateBrowsePathsToNodeIdsRequest :=
    { browsePaths := [{ startingNode := startNode,
                        elements := path.map (relativePathElement nodeIdFromQString) }] }
  let res := UA_Client_Service_translateBrowsePathsToNodeIds req
  let failed : Emitted :=
    { signals := [Signal.resolveBrowsePathFinished handle [] path res.serviceResult],
      calls := [TransportCall.service_translateBrowsePathsToNodeIds req] }
  if res.serviceResult ≠ UaStatusCode.Good ∨ res.results.length ≠ 1 then failed
  else
    match res.results with
    | r0 :: _ =>
      { signals := [Signal.resolveBrowsePathFinished handle
          (r0.targets.map (convertBrowsePathTarget vc fromUtf8)) path r0.statusCode],
        calls := [TransportCall.service_translateBrowsePathsToNodeIds req] }
    | [] => failed

/-! ### Subscriptions and the publish pump -/

section Subscriptions

variable {τ : Type}

/-- Function `Open62541AsyncBackend::getSubscriptionForItem`: the pointer stored for
(handle, attr), `none` for `nullptr`. -/
def getSubscriptionForItem (w : Open62541AsyncBackend τ) (handle : Nat) (attr : NodeAttribute) :
    Option Nat :=
  match w.m_attributeMapping.find handle with
  | none => none
  | some nodeEntry => nodeEntry.find attr

/-- Function `Open62541AsyncBackend::cleanupSubscriptions`. -/
def cleanupSubscriptions (w : Open62541AsyncBackend τ) : Open62541AsyncBackend τ :=
  { w with m_subscriptions := [], m_attributeMapping := [], m_minPublishingInterval := 0 }

/-- Function `Open62541AsyncBackend::sendPublishRequest`, one pump step. -/
def sendPublishRequest (T : Transport τ) (w : Open62541AsyncBackend τ) : Open62541AsyncBackend τ :=
  if w.m_uaclient = false then w
  else if w.m_sendPublishRequests = false then w
  else
    let r := T.runAsync w.transport
    let w := { w with transport := r.2, calls := w.calls ++ [TransportCall.runAsync] }
    if r.1 = UaStatusCode.BadServerNotConnected then
      cleanupSubscriptions { w with m_sendPublishRequests := false }
    else
      { w with m_subscriptionTimer := true }

/-- Function `Open62541AsyncBackend::modifyPublishRequests`. -/
def modifyPublishRequests (T : Transport τ) (w : Open62541AsyncBackend τ) :
    Open62541AsyncBackend τ :=
  if w.m_subscriptions.length = 0 then
    { w with m_subscriptionTimer := false, m_sendPublishRequests := false }
  else
    sendPublishRequest T { w with m_subscriptionTimer := false, m_sendPublishRequests := true }

/-- Function `Open62541AsyncBackend::removeSubscription`; `removeOnServer` is the
transport call deleting the subscription. -/
def removeSubscription (T : Transport τ) (w : Open62541AsyncBackend τ) (subscriptionId : Nat) :
    Bool × Open62541AsyncBackend τ :=
  match w.m_subscriptions.find subscriptionId with
  | some _ =>
    let w := { w with transport := T.deleteSubscription w.transport subscriptionId,
                      calls := w.calls ++ [TransportCall.subscriptions_delete subscriptionId],
                      m_subscriptions := w.m_subscriptions.remove subscriptionId }
    (true, modifyPublishRequests T w)
  | none => (false, w)

/-- Function `Open62541AsyncBackend::getSubscription`: the subscription found or created
(`none` for `nullptr`) and the state afterwards. `createOnServer` is the transport call
creating the subscription; the new object takes the revised interval. -/
def getSubscription (env : QOpcUaBackend) (T : Transport τ) (w : Open62541AsyncBackend τ)
    (settings : QOpcUaMonitoringParameters) : Option Nat × Open62541AsyncBackend τ :=
  let found : Option (Nat × QOpen62541Subscription) :=
    if settings.shared = SubscriptionType.Shared then
      let interval := env.revisePublishingInterval settings.publishingInterval
        w.m_minPublishingInterval
      List.find? (fun entry => env.qFuzzyCompare entry.2.interval interval
        && decide (entry.2.shared = SubscriptionType.Shared)) w.m_subscriptions
    else none
  match found with
  | some entry => (some entry.1, w)
  | none =>
    let r := T.createSubscription w.transport settings
    let id := r.1.1
    let sub : QOpen62541Subscription :=
      { interval := r.1.2, shared := settings.shared, items := [] }
    let w := { w with transport := r.2, calls := w.calls ++ [TransportCall.subscriptions_create] }
    if id = 0 then (none, w)
    else
      (some id,
       { w with m_subscriptions := w.m_subscriptions.insert id sub,
                m_minPublishingInterval :=
                  if sub.interval > settings.samplingInterval then sub.interval
                  else w.m_minPublishingInterval })

/-- Number of monitored items of the subscription `sub` points to. -/
def monitoredItemsCount (w : Open62541AsyncBackend τ) (sub : Nat) : Nat :=
  match w.m_subscriptions.find sub with
  | some s => s.items.length
  | none => 0

/-- Modelled from the spec: `QOpen62541Subscription::addAttributeMonitoredItem` asks the
server for a monitored item; the item is added to the subscription only when the server
confirms success; the outcome is reported by `monitoringEnableDisable`. -/
def addAttributeMonitoredItem (T : Transport τ) (w : Open62541AsyncBackend τ) (sub : Nat)
    (handle : Nat) (attr : NodeAttribute) (id : UA_NodeId)
    (settings : QOpcUaMonitoringParameters) : Bool × Open62541AsyncBackend τ :=
  let r := T.createMonitoredItem w.transport sub handle attr id settings
  let w := { w with transport := r.2,
                    calls := w.calls ++ [TransportCall.monitoredItems_create sub handle attr],
                    signals := w.signals ++ [Signal.monitoringEnableDisable handle attr true r.1] }
  if r.1 = UaStatusCode.Good then
    (true, { w with m_subscriptions := w.m_subscriptions.modify sub (fun s =>
      { s with items := if (handle, attr) ∈ s.items then s.items else s.items ++ [(handle, attr)] }) })
  else (false, w)

/-- Modelled from the spec: `QOpen62541Subscription::removeAttributeMonitoredItem` asks
the server to delete the monitored item and removes the item from the subscription,
whatever the server answers; the outcome is reported by `monitoringEnableDisable`. -/
def removeAttributeMonitoredItem (T : Transport τ) (w : Open62541AsyncBackend τ) (sub : Nat)
    (handle : Nat) (attr : NodeAttribute) : Open62541AsyncBackend τ :=
  let r := T.deleteMonitoredItem w.transport sub handle attr
  { w with transport := r.2,
           calls := w.calls ++ [TransportCall.monitoredItems_delete sub handle attr],
           signals := w.signals ++ [Signal.monitoringEnableDisable handle attr false r.1],
           m_subscriptions := w.m_subscriptions.modify sub (fun s =>
             { s with items := s.items.filter (fun it => decide (it ≠ (handle, attr))) }) }

/-- Modelled from the spec: `QOpen62541Subscription::modifyMonitoring` passes the
parameter change to the server; the monitored items stay as they are, the interval is
the revised one when the server revised it; the outcome is reported by
`monitoringStatusChanged`. -/
def subscriptionModifyMonitoring (T : Transport τ) (w : Open62541AsyncBackend τ) (sub : Nat)
    (handle : Nat) (attr : NodeAttribute) (item : Nat) (value : QVariant) :
    Open62541AsyncBackend τ :=
  let r := T.modifyMonitoredItem w.transport sub handle attr item value
  { w with transport := r.2,
           calls := w.calls ++ [TransportCall.monitoredItems_modify sub handle attr],
           signals := w.signals ++ [Signal.monitoringStatusChanged handle attr item r.1.1],
           m_subscriptions := w.m_subscriptions.modify sub (fun s =>
             match r.1.2 with
             | some revised => { s with interval := revised }
             | none => s) }

/-- The statement `m_attributeMapping[handle][attr] = sub`. -/
def setMapping (w : Open62541AsyncBackend τ) (handle : Nat) (attr : NodeAttribute) (sub : Nat) :
    Open62541AsyncBackend τ :=
  let nodeEntry := (w.m_attributeMapping.find handle).getD []
  { w with m_attributeMapping := w.m_attributeMapping.insert handle (nodeEntry.insert attr sub) }

/-- The statement `m_attributeMapping[handle].remove(attr)`. -/
def removeMapping (w : Open62541AsyncBackend τ) (handle : Nat) (attr : NodeAttribute) :
    Open62541AsyncBackend τ :=
  let nodeEntry := (w.m_attributeMapping.find handle).getD []
  { w with m_attributeMapping := w.m_attributeMapping.insert handle (nodeEntry.remove attr) }

/-- The first part of `enableMonitoring`: the subscription to use (`none` when the named
id is unknown or no subscription could be created) and the state afterwards. -/
def resolveSubscription (env : QOpcUaBackend) (T : Transport τ) (w : Open62541AsyncBackend τ)
    (settings : QOpcUaMonitoringParameters) : Option Nat × Open62541AsyncBackend τ :=
  if settings.subscriptionId ≠ 0 then
    match w.m_subscriptions.find settings.subscriptionId with
    | none => (none, w)
    | some _ => (some settings.subscriptionId, w)
  else getSubscription env T w settings

/-- Body of the attribute loop of `enableMonitoring`. -/
def enableStep (T : Transport τ) (handle : Nat) (id : UA_NodeId)
    (settings : QOpcUaMonitoringParameters) (usedSubscription : Nat)
    (w : Open62541AsyncBackend τ) (attr : NodeAttribute) : Open62541AsyncBackend τ :=
  if (getSubscriptionForItem w handle attr).isSome then
    { w with signals := w.signals ++
        [Signal.monitoringEnableDisable handle attr true UaStatusCode.BadEntryExists] }
  else
    let r := addAttributeMonitoredItem T w usedSubscription handle attr id settings
    if r.1 then setMapping r.2 handle attr usedSubscription else r.2

/-- Function `Open62541AsyncBackend::enableMonitoring`. Both failure branches emit the
same signals and return, so they are one branch here. -/
def enableMonitoring (env : QOpcUaBackend) (T : Transport τ) (w : Open62541AsyncBackend τ)
    (handle : Nat) (id : UA_NodeId) (attr : NodeAttributes)
    (settings : QOpcUaMonitoringParameters) : Open62541AsyncBackend τ :=
  match resolveSubscription env T w settings with
  | (none, w) =>
    { w with signals := w.signals ++ (qt_forEachAttribute attr).map (fun a =>
        Signal.monitoringEnableDisable handle a true UaStatusCode.BadSubscriptionIdInvalid) }
  | (some usedSubscription, w) =>
    let w := (qt_forEachAttribute attr).foldl (enableStep T handle id settings usedSubscription) w
    let w := if monitoredItemsCount w usedSubscription = 0
      then (removeSubscription T w usedSubscription).2 else w
    modifyPublishRequests T w

/-- Body of the attribute loop of `disableMonitoring`. -/
def disableStep (T : Transport τ) (handle : Nat) (w : Open62541AsyncBackend τ)
    (attr : NodeAttribute) : Open62541AsyncBackend τ :=
  match getSubscriptionForItem w handle attr with
  | none => w
  | some sub =>
    let w := removeAttributeMonitoredItem T w sub handle attr
    let w := removeMapping w handle attr
    if monitoredItemsCount w sub = 0 then (removeSubscription T w sub).2 else w

/-- Function `Open62541AsyncBackend::disableMonitoring`. -/
def disableMonitoring (T : Transport τ) (w : Open62541AsyncBackend τ) (handle : Nat)
    (attr : NodeAttributes) : Open62541AsyncBackend τ :=
  modifyPublishRequests T ((qt_forEachAttribute attr).foldl (disableStep T handle) w)

/-- Function `Open62541AsyncBackend::modifyMonitoring`. -/
def modifyMonitoring (T : Transport τ) (w : Open62541AsyncBackend τ) (handle : Nat)
    (attr : NodeAttribute) (item : Nat) (value : QVariant) : Open62541AsyncBackend τ :=
  match getSubscriptionForItem w handle attr with
  | none =>
    { w with signals := w.signals ++ [Signal.monitoringStatusChanged handle attr item
        UaStatusCode.BadMonitoredItemIdInvalid] }
  | some subscription =>
    modifyPublishRequests T (subscriptionModifyMonitoring T w subscription handle attr item value)

/-- Body of the item loop of `handleSubscriptionTimeout`. -/
def purgeItem (m : QHash Nat (QHash NodeAttribute Nat)) (it : MonitoredItemKey) :
    QHash Nat (QHash NodeAttribute Nat) :=
  match m.find it.1 with
  | none => m
  | some _ => m.modify it.1 (fun item => item.remove it.2)

/-- Function `Open62541AsyncBackend::handleSubscriptionTimeout`. -/
def handleSubscriptionTimeout (T : Transport τ) (w : Open62541AsyncBackend τ) (sub : Nat)
    (items : List MonitoredItemKey) : Open62541AsyncBackend τ :=
  modifyPublishRequests T
    { w with m_attributeMapping := items.foldl purgeItem w.m_attributeMapping,
             m_subscriptions := w.m_subscriptions.remove sub }

/-- Function `clientStateCallback`, for the backend the client context points to. -/
def clientStateCallback (w : Open62541AsyncBackend τ) (state : Nat) : Open62541AsyncBackend τ :=
  if w.m_useStateCallback = false then w
  else if state = UA_CLIENTSTATE_DISCONNECTED then
    cleanupSubscriptions
      { w with signals := w.signals ++ [Signal.stateAndOrErrorChanged QOpcUaClient.Disconnected
                 QOpcUaClient.ConnectionError],
               m_useStateCallback := false }
  else w

/-- Function `Open62541AsyncBackend::connectToEndpoint`; `userName` tells whether the url
carries a user name. -/
def connectToEndpoint (T : Transport τ) (w : Open62541AsyncBackend τ) (userName : Bool) :
    Open62541AsyncBackend τ :=
  let w := cleanupSubscriptions w
  let w := { w with m_useStateCallback := false, m_uaclient := true }
  let r := T.connect w.transport userName
  let w := { w with transport := r.2, calls := w.calls ++ [TransportCall.client_connect] }
  if r.1 ≠ UaStatusCode.Good then
    let error := if r.1 = UaStatusCode.BadUserAccessDenied
      then QOpcUaClient.AccessDenied else QOpcUaClient.UnknownError
    { w with m_uaclient := false,
             signals := w.signals ++ [Signal.stateAndOrErrorChanged QOpcUaClient.Disconnected error] }
  else
    { w with m_useStateCallback := true,
             signals := w.signals ++ [Signal.stateAndOrErrorChanged QOpcUaClient.Connected
               QOpcUaClient.NoError] }

/-- Function `Open62541AsyncBackend::disconnectFromEndpoint`. -/
def disconnectFromEndpoint (T : Transport τ) (w : Open62541AsyncBackend τ) :
    Open62541AsyncBackend τ :=
  let w := cleanupSubscriptions { w with m_subscriptionTimer := false }
  let w := { w with m_useStateCallback := false }
  let w := if w.m_uaclient then
      { w with transport := (T.disconnect w.transport).2,
               calls := w.calls ++ [TransportCall.client_disconnect],
               m_uaclient := false }
    else w
  { w with signals := w.signals ++ [Signal.stateAndOrErrorChanged QOpcUaClient.Disconnected
      QOpcUaClient.NoError] }

/-- The attribute mapping and the monitored-item sets agree: every entry of the mapping
points to a subscription of the index that holds the item, and every item held by a
subscription of the index is mapped to that subscription. -/
def Consistent (w : Open62541AsyncBackend τ) : Prop :=
  (∀ handle attr sub, getSubscriptionForItem w handle attr = some sub →
      ∃ s, w.m_subscriptions.find sub = some s ∧ (handle, attr) ∈ s.items) ∧
  (∀ sub s handle attr, w.m_subscriptions.find sub = some s → (handle, attr) ∈ s.items →
      getSubscriptionForItem w handle attr = some sub)

/-- The two-level lookup of `getSubscriptionForItem`, on the mapping alone. -/
def lookupItem (m : QHash Nat (QHash NodeAttribute Nat)) (handle : Nat) (attr : NodeAttribute) :
    Option Nat :=
  match m.find handle with
  | none => none
  | some nodeEntry => nodeEntry.find attr

/-- The pump invariant: the pump flag is set exactly when the subscription index is not
empty. -/
def PumpMatchesIndex (w : Open62541AsyncBackend τ) : Prop :=
  w.m_sendPublishRequests = true ↔ w.m_subscriptions ≠ []

/-- The test `getSubscription` applies to an entry of the index when a shared
subscription is asked for: the entry is shared and its interval matches the revised
requested publishing interval. -/
def isSharedMatch (env : QOpcUaBackend) (w : Open62541AsyncBackend τ)
    (settings : QOpcUaMonitoringParameters) (entry : Nat × QOpen62541Subscription) : Bool :=
  env.qFuzzyCompare entry.2.interval
      (env.revisePublishingInterval settings.publishingInterval w.m_minPublishingInterval)
    && decide (entry.2.shared = SubscriptionType.Shared)

end Subscriptions

end Open62541AsyncBackend

/-! ## Concrete data for the examples -/

namespace Example

/-- A converter: scalars from one-element data, lists otherwise. -/
def vc : QOpen62541ValueConverter :=
  { toUaAttributeId := fun a => a,
    toQVariant := fun v =>
      match v.data with
      | none => QVariant.invalid
      | some [x] => QVariant.scalar x
      | some xs => QVariant.list (xs.map QVariant.scalar),
    toOpen62541Variant := fun _ t => { type := t, data := none },
    dateTimeToQt := fun t => t,
    expandedNodeIdToQt := fun e =>
      { nodeId := "", namespaceUri := "", serverIndex := e.serverIndex },
    nodeIdToQString := fun _ => "",
    qualifiedNameToQt := fun q => q,
    localizedTextToQt := fun t => t,
    attributeIdToTypeId := fun _ => 0 }

def nodeId : UA_NodeId := { namespaceIndex := 2, identifier := 5 }

def browseRequest : QOpcUaBrowseRequest :=
  { browseDirection := 0, includeSubtypes := true, nodeClassMask := 0, referenceTypeId := "" }

/-- A reference description told apart by its node class. -/
def reference (nodeClass : Nat) : UA_ReferenceDescription :=
  { nodeId := { nodeId := nodeId, namespaceUri := { length := 0, data := [] },
                serverIndex := 0 },
    typeDefinition := { nodeId := nodeId, namespaceUri := { length := 0, data := [] },
                        serverIndex := 0 },
    referenceTypeId := nodeId, nodeClass := nodeClass, browseName := (0, ""),
    displayName := ("", ""), isForward := true }

/-- Round 0 is Good with two references and a continuation point, round 1 carries a
result with status `BadInternalError`, later rounds carry nothing. -/
def roundsFailingSecond : Nat → UA_BrowseResponse
  | 0 => { serviceResult := UaStatusCode.Good,
           results := [{ statusCode := UaStatusCode.Good, continuationPoint := [1],
                         references := [reference 1, reference 2] }] }
  | 1 => { serviceResult := UaStatusCode.Good,
           results := [{ statusCode := UaStatusCode.BadInternalError, continuationPoint := [],
                         references := [reference 3] }] }
  | _ => { serviceResult := UaStatusCode.Good, results := [] }

/-- The browse request fails at the service level while the result's status is Good. -/
def roundsServiceFailure : Nat → UA_BrowseResponse :=
  fun _ => { serviceResult := UaStatusCode.BadInternalError,
             results := [{ statusCode := UaStatusCode.Good, continuationPoint := [],
                           references := [] }] }

/-- The browse request fails at the service level and the response carries no result. -/
def roundsNotConnected : Nat → UA_BrowseResponse :=
  fun _ => { serviceResult := UaStatusCode.BadServerNotConnected, results := [] }

/-- A method call answered `Good` with two outputs. -/
def callTwoOutputs : UA_NodeId → UA_NodeId → List UA_Variant → UaStatusCode × List UA_Variant :=
  fun _ _ _ => (UaStatusCode.Good, [{ type := 6, data := some [10] }, { type := 6, data := some [20] }])

def env : QOpcUaBackend :=
  { revisePublishingInterval := fun requested minimum => max requested minimum,
    qFuzzyCompare := fun x y => decide (x = y) }

/-- A server that answers every call with success. Its state is the last subscription id
it assigned; new subscriptions get the next id and keep the requested publishing
interval. -/
def transportOk : Transport Nat :=
  { runAsync := fun t => (UaStatusCode.Good, t),
    createSubscription := fun t p => ((t + 1, p.publishingInterval), t + 1),
    deleteSubscription := fun t _ => t,
    createMonitoredItem := fun t _ _ _ _ _ => (UaStatusCode.Good, t),
    deleteMonitoredItem := fun t _ _ _ => (UaStatusCode.Good, t),
    modifyMonitoredItem := fun t _ _ _ _ _ => ((UaStatusCode.Good, none), t),
    connect := fun t _ => (UaStatusCode.Good, t),
    disconnect := fun t => (UaStatusCode.Good, t) }

/-- A connection that was lost: the pump step reports `BadServerNotConnected`. -/
def transportNotConnected : Transport Nat :=
  { transportOk with runAsync := fun t => (UaStatusCode.BadServerNotConnected, t) }

/-- A server that assigns id 7 to every new subscription. -/
def transportReusingId : Transport Nat :=
  { transportOk with createSubscription := fun t p => ((7, p.publishingInterval), t) }

/-- Shared subscription, 100 ms. -/
def settings : QOpcUaMonitoringParameters :=
  { subscriptionId := 0, publishingInterval := 100, samplingInterval := 100,
    shared := SubscriptionType.Shared }

/-- The same on the subscription with id 9, which does not exist. -/
def settingsUnknownId : QOpcUaMonitoringParameters :=
  { settings with subscriptionId := 9 }

/-- An exclusive subscription, 100 ms. -/
def settingsExclusive : QOpcUaMonitoringParameters :=
  { settings with shared := SubscriptionType.Exclusive }

/-- A backend right after a successful `connectToEndpoint`. -/
def connected : Open62541AsyncBackend Nat :=
  { m_uaclient := true, m_useStateCallback := true, m_subscriptionTimer := false,
    m_sendPublishRequests := false, m_minPublishingInterval := 0, m_subscriptions := [],
    m_attributeMapping := [], transport := 6, signals := [], calls := [] }

/-- The backend after `enableMonitoring` of the attributes Value and DisplayName of
handle 1 on `connected`: subscription 7 holds both items and the pump runs. -/
def monitoring : Open62541AsyncBackend Nat :=
  Open62541AsyncBackend.enableMonitoring env transportOk connected 1 nodeId
    (NodeAttribute.Value + NodeAttribute.DisplayName) settings

/-- The backend after `connectToEndpoint` was called again on `monitoring`. -/
def reconnected : Open62541AsyncBackend Nat :=
  Open62541AsyncBackend.connectToEndpoint transportOk monitoring false

def UncertainReferenceOutOfServer : UaStatusCode := 0x406C0000

/-- A read answered with one result that carries a source timestamp only. -/
def readSourceTimestampOnly : UA_ReadRequest → UA_ReadResponse :=
  fun _ => { serviceResult := UaStatusCode.Good,
             results := [{ hasValue := false, hasStatus := false, hasSourceTimestamp := true,
                           hasServerTimestamp := false, value := { type := 0, data := none },
                           status := 0, sourceTimestamp := 1000, serverTimestamp := 0 }] }

/-- A read answered with one result that carries a server timestamp only. -/
def readServerTimestampOnly : UA_ReadRequest → UA_ReadResponse :=
  fun _ => { serviceResult := UaStatusCode.Good,
             results := [{ hasValue := false, hasStatus := false, hasSourceTimestamp := false,
                           hasServerTimestamp := true, value := { type := 0, data := none },
                           status := 0, sourceTimestamp := 0, serverTimestamp := 2000 }] }

def nodeIdFromQString : String → UA_NodeId := fun _ => nodeId

/-- A decoder for the example: one character per byte. -/
def fromUtf8 : List Nat → String :=
  fun bytes => String.mk (bytes.map Char.ofNat)

/-- A target in another server. Its namespace uri is the three bytes of "uri"; a zero
byte follows them in memory. -/
def browsePathTarget : UA_BrowsePathTarget :=
  { targetId := { nodeId := nodeId, namespaceUri := { length := 3, data := [117, 114, 105, 0] },
                  serverIndex := 1 },
    remainingPathIndex := 0 }

/-- A target whose namespace uri, five bytes long, holds a zero byte in third place. -/
def browsePathTargetEmbeddedNul : UA_BrowsePathTarget :=
  { targetId := { nodeId := nodeId,
                  namespaceUri := { length := 5, data := [117, 114, 0, 105, 120, 0] },
                  serverIndex := 1 },
    remainingPathIndex := 0 }

def path : List QRelativePathElement :=
  [{ referenceTypeId := "", includeSubtypes := true, isInverse := false, targetName := (0, "") }]

/-- A translate request answered `Good` with one result whose status is
`UncertainReferenceOutOfServer` and which carries a target. -/
def translateOutOfServer :
    UA_TranslateBrowsePathsToNodeIdsRequest → UA_TranslateBrowsePathsToNodeIdsResponse :=
  fun _ => { serviceResult := UaStatusCode.Good,
             results := [{ statusCode := UncertainReferenceOutOfServer,
                           targets := [browsePathTarget] }] }

/-- A translate request answered `Good` with no result. -/
def translateNoResult :
    UA_TranslateBrowsePathsToNodeIdsRequest → UA_TranslateBrowsePathsToNodeIdsResponse :=
  fun _ => { serviceResult := UaStatusCode.Good, results := [] }

/-- A translate request that fails at the service level. -/
def translateNotConnected :
    UA_TranslateBrowsePathsToNodeIdsRequest → UA_TranslateBrowsePathsToNodeIdsResponse :=
  fun _ => { serviceResult := UaStatusCode.BadServerNotConnected, results := [] }

/-- An attribute map with two entries. -/
def toWrite : List (NodeAttribute × QVariant) :=
  [(NodeAttribute.DisplayName, QVariant.scalar 1), (NodeAttribute.Value, QVariant.scalar 2)]

/-- A write answered with one result only. -/
def writeOneResult : UA_WriteRequest → UA_WriteResponse :=
  fun _ => { serviceResult := UaStatusCode.BadInternalError,
             results := [UaStatusCode.Good] }

/-- A server that revises every publishing interval up to the next multiple of 100 ms. -/
def transportRounding : Transport Nat :=
  { transportOk with
    createSubscription := fun t p => ((t + 1, (p.publishingInterval + 99) / 100 * 100), t + 1) }

/-- An exclusive subscription asked for with 450 ms. -/
def settings450 : QOpcUaMonitoringParameters :=
  { subscriptionId := 0, publishingInterval := 450, samplingInterval := 450,
    shared := SubscriptionType.Exclusive }

/-- An exclusive subscription asked for with 50 ms. -/
def settings50 : QOpcUaMonitoringParameters :=
  { subscriptionId := 0, publishingInterval := 50, samplingInterval := 50,
    shared := SubscriptionType.Exclusive }

/-- The backend after a subscription was created for `settings450`: the server revised
the interval to 500 ms and the watermark is 500. -/
def watermark500 : Open62541AsyncBackend Nat :=
  (Open62541AsyncBackend.getSubscription env transportRounding connected settings450).2

end Example

/-! ## Properties -/

namespace Open62541AsyncBackend

/-! ### Reading and writing attributes -/

theorem readResult_attributeId (vc : QOpen62541ValueConverter) (res : UA_ReadResponse) (i : Nat)
    (r : QOpcUaReadResult) : (readResult vc res i r).attributeId = r.attributeId := by
  unfold readResult
  cases res.results[i]? with
  | none => rfl
  | some d =>
    simp only
    split_ifs <;> rfl

theorem readResult_unanswered (vc : QOpen62541ValueConverter) (res : UA_ReadResponse) (i : Nat)
    (r : QOpcUaReadResult) (h : res.results.length ≤ i) :
    (readResult vc res i r).statusCode = res.serviceResult := by
  unfold readResult
  rw [List.getElem?_eq_none h]

/-- C1: for every attribute set, every index range, every converter and every read
response of the server (any number of results), `readAttributes` emits one
`attributesRead` signal whose result vector has exactly as many elements as the
attribute set expands to, element `i` carrying the `i`-th attribute id, and every
element at an index the response has no result for carrying the service-level status. -/
theorem readAttributes_one_result_per_attribute (vc : QOpen62541ValueConverter)
    (UA_Client_Service_read : UA_ReadRequest → UA_ReadResponse)
    (handle : Nat) (id : UA_NodeId) (attr : NodeAttributes) (indexRange : String) :
    ∃ (req : UA_ReadRequest) (vec : List QOpcUaReadResult),
      (readAttributes vc UA_Client_Service_read handle id attr indexRange).calls
        = [TransportCall.service_read req] ∧
      (readAttributes vc UA_Client_Service_read handle id attr indexRange).signals
        = [Signal.attributesRead handle vec (UA_Client_Service_read req).serviceResult] ∧
      vec.length = (qt_forEachAttribute attr).length ∧
      vec.map (fun r => r.attributeId) = qt_forEachAttribute attr ∧
      ∀ (i : Nat) (r : QOpcUaReadResult), vec[i]? = some r →
        (UA_Client_Service_read req).results.length ≤ i →
        r.statusCode = (UA_Client_Service_read req).serviceResult := by
  refine ⟨_, _, rfl, rfl, ?_, ?_, ?_⟩
  · simp
  · apply List.ext_getElem?
    intro i
    simp only [List.getElem?_map, List.getElem?_mapIdx]
    cases (qt_forEachAttribute attr)[i]? with
    | none => rfl
    | some a => simp [readResult_attributeId]
  · intro i r hr hle
    simp only [List.getElem?_mapIdx, List.getElem?_map] at hr
    cases hq : (qt_forEachAttribute attr)[i]? with
    | none => simp [hq] at hr
    | some a =>
      simp only [hq, Option.map_some', Option.some.injEq] at hr
      rw [← hr]
      exact readResult_unanswered vc _ i _ hle

/-- C2: for every handle, node id and value type, `writeAttributes` with an empty
attribute map emits exactly one `attributeWritten` signal, carrying attribute `None`, an
invalid (empty) value and status `BadNothingToDo`, and makes no transport call. -/
theorem writeAttributes_empty_map (vc : QOpen62541ValueConverter)
    (UA_Client_Service_write : UA_WriteRequest → UA_WriteResponse)
    (handle : Nat) (id : UA_NodeId) (valueAttributeType : Types) :
    (writeAttributes vc UA_Client_Service_write handle id [] valueAttributeType).signals
      = [Signal.attributeWritten handle NodeAttribute.None QVariant.invalid
          UaStatusCode.BadNothingToDo] ∧
    (writeAttributes vc UA_Client_Service_write handle id [] valueAttributeType).calls = [] := by
  constructor <;> rfl

/-! ### Browsing -/

/-- The status `browse` ends with when the loop stops at a round with response `r`. -/
theorem browseLoop_stop (vc : QOpen62541ValueConverter) (rounds : Nat → UA_BrowseResponse)
    (fuel j : Nat) (ret : List QOpcUaReferenceDescription) (calls : List TransportCall)
    (hstop : ¬ ((rounds j).isGood = true ∧ (rounds j).hasContinuationPoint = true)) :
    ∃ status,
      browseLoop vc rounds (fuel + 1) j (rounds j) ret UaStatusCode.Good calls
        = some (ret ++ (if (rounds j).isGood then (rounds j).references.map (convertReference vc)
                        else []), status, calls) ∧
      ((rounds j).isGood = true → status = UaStatusCode.Good) ∧
      (∀ r0 rest, (rounds j).results = r0 :: rest → (rounds j).isGood = false →
        status = r0.statusCode) ∧
      ((rounds j).results = [] → status = UaStatusCode.Good) := by
  unfold UA_BrowseResponse.isGood UA_BrowseResponse.hasContinuationPoint
    UA_BrowseResponse.references at *
  unfold browseLoop
  cases hres : (rounds j).results with
  | nil => exact ⟨UaStatusCode.Good, by simp, by simp, by simp, by simp⟩
  | cons r0 rest =>
    simp only [hres, decide_eq_true_eq, not_and, not_not, ne_eq, not_true_eq_false, ite_false] at *
    by_cases hg : (rounds j).serviceResult = UaStatusCode.Good ∧ r0.statusCode = UaStatusCode.Good
    · have hc := hstop hg
      refine ⟨UaStatusCode.Good, ?_, by simp, ?_, by simp⟩
      · have h1 : ¬ (¬ (rounds j).serviceResult = UaStatusCode.Good ∨
            ¬ r0.statusCode = UaStatusCode.Good) := by tauto
        simp [h1, hc, hg, convertBrowseResult]
      · intro r0' rest' h hb
        simp [hg] at hb
    · refine ⟨r0.statusCode, ?_, ?_, ?_, by simp⟩
      · have h1 : (¬ (rounds j).serviceResult = UaStatusCode.Good ∨
            ¬ r0.statusCode = UaStatusCode.Good) := by tauto
        simp [h1, hg]
      · intro h; simp [hg] at h
      · intro r0' rest' h _
        simp only [List.cons.injEq] at h
        rw [h.1]

/-- One round that goes on: the references are appended and the next round is asked for. -/
theorem browseLoop_continue (vc : QOpen62541ValueConverter) (rounds : Nat → UA_BrowseResponse)
    (fuel j : Nat) (ret : List QOpcUaReferenceDescription) (calls : List TransportCall)
    (hgo : (rounds j).isGood = true ∧ (rounds j).hasContinuationPoint = true) :
    ∃ calls2,
      browseLoop vc rounds (fuel + 1) j (rounds j) ret UaStatusCode.Good calls
        = browseLoop vc rounds fuel (j + 1) (rounds (j + 1))
            (ret ++ (rounds j).references.map (convertReference vc)) UaStatusCode.Good calls2 := by
  unfold UA_BrowseResponse.isGood UA_BrowseResponse.hasContinuationPoint
    UA_BrowseResponse.references at *
  cases hres : (rounds j).results with
  | nil => simp [hres] at hgo
  | cons r0 rest =>
    simp only [hres, decide_eq_true_eq] at hgo
    obtain ⟨⟨h1, h2⟩, h3⟩ := hgo
    refine ⟨calls ++ [TransportCall.service_browseNext r0.continuationPoint], ?_⟩
    rw [browseLoop]
    simp [hres, h1, h2, h3, convertBrowseResult]

theorem flatMap_range_succ {β : Type} (g : Nat → List β) (k : Nat) :
    (List.range (k + 1)).flatMap g = g 0 ++ (List.range k).flatMap (fun i => g (i + 1)) := by
  rw [List.range_succ_eq_map, List.flatMap_cons, List.flatMap_map]

theorem browseLoop_run (vc : QOpen62541ValueConverter) (rounds : Nat → UA_BrowseResponse) :
    ∀ (k fuel j : Nat) (ret : List QOpcUaReferenceDescription) (calls : List TransportCall),
      (∀ i, i < k → (rounds (j + i)).isGood = true ∧ (rounds (j + i)).hasContinuationPoint = true) →
      ¬ ((rounds (j + k)).isGood = true ∧ (rounds (j + k)).hasContinuationPoint = true) →
      k < fuel →
      ∃ status calls2,
        browseLoop vc rounds fuel j (rounds j) ret UaStatusCode.Good calls
          = some (ret ++ ((List.range k).flatMap
                    (fun i => (rounds (j + i)).references.map (convertReference vc))
                  ++ (if (rounds (j + k)).isGood
                      then (rounds (j + k)).references.map (convertReference vc) else [])),
                  status, calls2) ∧
        ((rounds (j + k)).isGood = true → status = UaStatusCode.Good) ∧
        (∀ r0 rest, (rounds (j + k)).results = r0 :: rest → (rounds (j + k)).isGood = false →
          status = r0.statusCode) ∧
        ((rounds (j + k)).results = [] → status = UaStatusCode.Good) := by
  intro k
  induction k with
  | zero =>
    intro fuel j ret calls _ hstop hfuel
    obtain ⟨f, rfl⟩ : ∃ f, fuel = f + 1 := ⟨fuel - 1, by omega⟩
    obtain ⟨status, h1, h2⟩ := browseLoop_stop vc rounds f j ret calls (by simpa using hstop)
    exact ⟨status, calls, by simpa using h1, by simpa using h2⟩
  | succ k ih =>
    intro fuel j ret calls hgo hstop hfuel
    obtain ⟨f, rfl⟩ : ∃ f, fuel = f + 1 := ⟨fuel - 1, by omega⟩
    obtain ⟨calls1, hstep⟩ := browseLoop_continue vc rounds f j ret calls (by simpa using hgo 0 (by omega))
    have hgo2 : ∀ i, i < k → (rounds (j + 1 + i)).isGood = true ∧
        (rounds (j + 1 + i)).hasContinuationPoint = true := by
      intro i hi
      have := hgo (i + 1) (by omega)
      rwa [show j + (i + 1) = j + 1 + i by omega] at this
    have hstop2 : ¬ ((rounds (j + 1 + k)).isGood = true ∧
        (rounds (j + 1 + k)).hasContinuationPoint = true) := by
      rwa [show j + (k + 1) = j + 1 + k by omega] at hstop
    obtain ⟨status, calls2, h1, h2⟩ := ih f (j + 1)
      (ret ++ (rounds j).references.map (convertReference vc)) calls1 hgo2 hstop2 (by omega)
    refine ⟨status, calls2, ?_, ?_⟩
    · have e : (List.range (k + 1)).flatMap
            (fun i => (rounds (j + i)).references.map (convertReference vc))
          = (rounds j).references.map (convertReference vc) ++ (List.range k).flatMap
            (fun i => (rounds (j + 1 + i)).references.map (convertReference vc)) := by
        rw [flatMap_range_succ]
        congr 2
        funext i
        rw [show j + (i + 1) = j + 1 + i by omega]
      rw [hstep, h1, e, show j + (k + 1) = j + 1 + k by omega]
      simp only [List.append_assoc]
    · rwa [show j + (k + 1) = j + 1 + k by omega]

/-- C8: for every sequence of browse and browse-next responses: if rounds `0 .. k-1` are
Good (service level and result) with a non-empty continuation point and round `k` is the
first that is not, `browse` (given fuel for `k + 1` evaluations of the loop condition)
emits one `browseFinished` whose reference list is the concatenation, in round order and
in within-round order, of the converted references of rounds `0 .. k-1`, followed by
those of round `k` when round `k` is Good (its continuation point is then empty) and by
nothing when round `k` is not Good; when round `k` has a result and is not Good the status
carried is that result's status. (For `k = 1` with a non-Good per-result status in the
second round: exactly the first round's references, with the second round's status.) -/
theorem browse_accumulates_rounds_in_order (vc : QOpen62541ValueConverter)
    (rounds : Nat → UA_BrowseResponse) (k fuel handle : Nat) (id : UA_NodeId)
    (request : QOpcUaBrowseRequest)
    (hgo : ∀ i, i < k → (rounds i).isGood = true ∧ (rounds i).hasContinuationPoint = true)
    (hstop : ¬ ((rounds k).isGood = true ∧ (rounds k).hasContinuationPoint = true))
    (hfuel : k < fuel) :
    ∃ status,
      (browse vc rounds fuel handle id request).map (fun e => e.signals)
        = some [Signal.browseFinished handle
            ((List.range k).flatMap (fun i => (rounds i).references.map (convertReference vc))
              ++ (if (rounds k).isGood then (rounds k).references.map (convertReference vc)
                  else []))
            status] ∧
      ((rounds k).isGood = true → status = UaStatusCode.Good) ∧
      (∀ r0 rest, (rounds k).results = r0 :: rest → (rounds k).isGood = false →
        status = r0.statusCode) := by
  obtain ⟨status, calls2, h1, h2, h3, _⟩ := browseLoop_run vc rounds k fuel 0 []
    [TransportCall.service_browse id request] (by simpa using hgo) (by simpa using hstop) hfuel
  refine ⟨status, ?_, by simpa using h2, by simpa using h3⟩
  unfold browse
  rw [h1]
  simp

end Open62541AsyncBackend

namespace Open62541AsyncBackend

/-- Instance of C8: the first round is Good with two references and a continuation point,
the second carries a result with status `BadInternalError`: `browseFinished` carries the
two references of the first round and `BadInternalError`. -/
theorem browse_accumulates_rounds_in_order_witness :
    (∀ i, i < 1 → (Example.roundsFailingSecond i).isGood = true ∧
      (Example.roundsFailingSecond i).hasContinuationPoint = true) ∧
    ¬ ((Example.roundsFailingSecond 1).isGood = true ∧
      (Example.roundsFailingSecond 1).hasContinuationPoint = true) ∧
    (browse Example.vc Example.roundsFailingSecond 2 7 Example.nodeId
        Example.browseRequest).map (fun e => e.signals)
      = some [Signal.browseFinished 7
          [convertReference Example.vc (Example.reference 1),
           convertReference Example.vc (Example.reference 2)]
          UaStatusCode.BadInternalError] := by
  refine ⟨by decide, by decide, ?_⟩
  obtain ⟨status, h1, _, h3⟩ := browse_accumulates_rounds_in_order Example.vc
    Example.roundsFailingSecond 1 2 7 Example.nodeId Example.browseRequest
    (by decide) (by decide) (by decide)
  have hs := h3 _ _ rfl rfl
  subst hs
  exact h1

/-- C9: at a browse whose response fails at the service level, `browse` reports status
`Good`: once with a result whose own status is Good (the loop stops and takes the
result's status), once with no result at all (the loop is not entered). -/
theorem browse_service_failure_reported_good :
    (browse Example.vc Example.roundsServiceFailure 1 7 Example.nodeId
        Example.browseRequest).map (fun e => e.signals)
      = some [Signal.browseFinished 7 [] UaStatusCode.Good] ∧
    (browse Example.vc Example.roundsNotConnected 1 7 Example.nodeId
        Example.browseRequest).map (fun e => e.signals)
      = some [Signal.browseFinished 7 [] UaStatusCode.Good] := by
  constructor <;> rfl

/-! ### Calling methods -/

/-- C10: for every `callMethod` whose transport call returns `Good` with outputs `outs`,
whatever the input arguments (none included): `methodCallFinished` carries the invalid
(empty) value when there is no output, the conversion of the output when there is
exactly one, and, when there are more, a list with one element per output, the `i`-th
being the conversion of the `i`-th output. -/
theorem callMethod_result_shape (vc : QOpen62541ValueConverter)
    (UA_Client_call : UA_NodeId → UA_NodeId → List UA_Variant → UaStatusCode × List UA_Variant)
    (handle : Nat) (objectId methodId : UA_NodeId) (args : List (QVariant × Types))
    (outs : List UA_Variant)
    (hcall : UA_Client_call objectId methodId (args.map (fun a => vc.toOpen62541Variant a.1 a.2))
      = (UaStatusCode.Good, outs)) :
    ∃ result,
      (callMethod vc UA_Client_call handle objectId methodId args).signals
        = [Signal.methodCallFinished handle (vc.nodeIdToQString methodId) result
            UaStatusCode.Good] ∧
      (outs.length = 0 → result = QVariant.invalid) ∧
      (∀ o, outs = [o] → result = vc.toQVariant o) ∧
      (outs.length > 1 → ∃ items, result = QVariant.list items ∧ items.length = outs.length ∧
        ∀ (i : Nat) (o : UA_Variant), outs[i]? = some o → items[i]? = some (vc.toQVariant o)) := by
  unfold callMethod
  simp only [hcall]
  refine ⟨_, rfl, ?_, ?_, ?_⟩
  · intro h0
    have : outs = [] := List.length_eq_zero.mp h0
    subst this
    simp
  · intro o ho
    subst ho
    simp
  · intro hk
    refine ⟨outs.map vc.toQVariant, ?_, by simp, ?_⟩
    · simp [hk]
    · intro i o ho
      simp [ho]

/-- Instance of C10: no input argument, a Good answer with two outputs: the result is the
list of the two converted outputs, in order. -/
theorem callMethod_result_shape_witness :
    Example.callTwoOutputs Example.nodeId Example.nodeId
        (([] : List (QVariant × Types)).map (fun a => Example.vc.toOpen62541Variant a.1 a.2))
      = (UaStatusCode.Good, [{ type := 6, data := some [10] }, { type := 6, data := some [20] }]) ∧
    (callMethod Example.vc Example.callTwoOutputs 7 Example.nodeId Example.nodeId []).signals
      = [Signal.methodCallFinished 7 "" (QVariant.list [QVariant.scalar 10, QVariant.scalar 20])
          UaStatusCode.Good] := by
  refine ⟨rfl, ?_⟩
  obtain ⟨result, h1, _, _, h4⟩ := callMethod_result_shape Example.vc Example.callTwoOutputs 7
    Example.nodeId Example.nodeId [] _ rfl
  obtain ⟨items, hres, hlen, hitems⟩ := h4 (by decide)
  have e0 := hitems 0 _ rfl
  have e1 := hitems 1 _ rfl
  rcases items with _ | ⟨a, _ | ⟨b, _ | ⟨c, t⟩⟩⟩ <;> simp at hlen e0 e1
  subst e0 e1 hres
  exact h1

end Open62541AsyncBackend

/-! ### Hash lookups -/

namespace QHash

variable {κ ν : Type} [DecidableEq κ]

theorem find_remove (m : QHash κ ν) (key k : κ) :
    (m.remove key).find k = if k = key then none else m.find k := by
  induction m with
  | nil => simp [remove, find]
  | cons e m ih =>
    obtain ⟨k1, v1⟩ := e
    unfold remove at ih ⊢
    by_cases h1 : k1 = key
    · subst h1
      simp only [List.filter, ne_eq, not_true_eq_false, decide_False]
      rw [ih]
      by_cases h2 : k = k1
      · simp [h2]
      · have h3 : ¬ k1 = k := fun h => h2 h.symm
        simp [find, h2, h3]
    · simp only [List.filter, ne_eq, h1, not_false_eq_true, decide_True, find]
      rw [ih]
      by_cases h2 : k1 = k
      · subst h2
        simp [h1]
      · simp [h2]

theorem find_insert (m : QHash κ ν) (key k : κ) (v : ν) :
    (m.insert key v).find k = if k = key then some v else m.find k := by
  unfold insert
  simp only [find]
  by_cases h : key = k
  · simp [h]
  · have h2 : ¬ k = key := fun e => h e.symm
    simp [h, h2, find_remove]

theorem find_modify (m : QHash κ ν) (key k : κ) (f : ν → ν) :
    (m.modify key f).find k = if k = key then (m.find k).map f else m.find k := by
  induction m with
  | nil => simp [modify, find]
  | cons e m ih =>
    obtain ⟨k1, v1⟩ := e
    have hcons : modify ((k1, v1) :: m) key f
        = (if k1 = key then (k1, f v1) else (k1, v1)) :: modify m key f := rfl
    rw [hcons]
    by_cases h1 : k1 = key
    · rw [if_pos h1]
      simp only [find]
      rw [ih]
      by_cases h2 : k1 = k
      · have h3 : k = key := by rw [← h2, h1]
        simp [h2, h3]
      · simp [h2]
    · rw [if_neg h1]
      simp only [find]
      rw [ih]
      by_cases h2 : k1 = k
      · have h3 : ¬ k = key := by rw [← h2]; exact h1
        simp [h2, h3]
      · simp [h2]

end QHash

namespace Open62541AsyncBackend

section SubscriptionProperties

variable {τ : Type}

/-! ### The attribute mapping -/

theorem getSubscriptionForItem_eq_lookupItem (w : Open62541AsyncBackend τ) (handle : Nat)
    (attr : NodeAttribute) :
    getSubscriptionForItem w handle attr = lookupItem w.m_attributeMapping handle attr := rfl

theorem lookupItem_setMapping (w : Open62541AsyncBackend τ) (handle : Nat) (attr : NodeAttribute)
    (sub h : Nat) (a : NodeAttribute) :
    lookupItem (setMapping w handle attr sub).m_attributeMapping h a
      = if h = handle ∧ a = attr then some sub else lookupItem w.m_attributeMapping h a := by
  unfold setMapping lookupItem
  simp only [QHash.find_insert]
  by_cases hh : h = handle
  · subst hh
    simp only [if_true, true_and, QHash.find_insert]
    by_cases ha : a = attr
    · simp [ha]
    · simp only [ha, if_false]
      cases w.m_attributeMapping.find h <;> simp [QHash.find]
  · simp [hh]

theorem lookupItem_removeMapping (w : Open62541AsyncBackend τ) (handle : Nat)
    (attr : NodeAttribute) (h : Nat) (a : NodeAttribute) :
    lookupItem (removeMapping w handle attr).m_attributeMapping h a
      = if h = handle ∧ a = attr then none else lookupItem w.m_attributeMapping h a := by
  unfold removeMapping lookupItem
  simp only [QHash.find_insert]
  by_cases hh : h = handle
  · subst hh
    simp only [if_true, true_and, QHash.find_remove]
    by_cases ha : a = attr
    · simp [ha]
    · simp only [ha, if_false]
      cases w.m_attributeMapping.find h <;> simp [QHash.find]
  · simp [hh]

theorem lookupItem_purgeItem (m : QHash Nat (QHash NodeAttribute Nat)) (it : MonitoredItemKey)
    (h : Nat) (a : NodeAttribute) :
    lookupItem (purgeItem m it) h a = if (h, a) = it then none else lookupItem m h a := by
  obtain ⟨h1, a1⟩ := it
  unfold purgeItem lookupItem
  cases hf : m.find h1 with
  | none =>
    simp only [Prod.mk.injEq]
    by_cases hh : h = h1
    · subst hh
      simp [hf]
    · simp [hh]
  | some inner =>
    simp only [QHash.find_modify, Prod.mk.injEq]
    by_cases hh : h = h1
    · subst hh
      simp only [if_true, hf, Option.map_some', true_and, QHash.find_remove]
    · simp [hh]

theorem lookupItem_purge (items : List MonitoredItemKey) :
    ∀ (m : QHash Nat (QHash NodeAttribute Nat)) (h : Nat) (a : NodeAttribute),
      lookupItem (items.foldl purgeItem m) h a
        = if (h, a) ∈ items then none else lookupItem m h a := by
  induction items with
  | nil => intro m h a; simp
  | cons it items ih =>
    intro m h a
    simp only [List.foldl_cons, ih, lookupItem_purgeItem, List.mem_cons]
    by_cases h1 : (h, a) ∈ items
    · simp [h1]
    · by_cases h2 : (h, a) = it
      · simp [h2]
      · simp [h1, h2]

/-! ### The publish pump -/

/-- What a state keeps when no subscription is purged. -/
theorem modifyPublishRequests_signals (T : Transport τ) (w : Open62541AsyncBackend τ) :
    (modifyPublishRequests T w).signals = w.signals := by
  unfold modifyPublishRequests sendPublishRequest cleanupSubscriptions
  by_cases h0 : w.m_subscriptions.length = 0
  · simp [h0]
  · by_cases h1 : w.m_uaclient = false
    · simp [h0, h1]
    · by_cases h2 : (T.runAsync w.transport).1 = UaStatusCode.BadServerNotConnected
      · simp [h0, h1, h2]
      · simp [h0, h1, h2]

theorem modifyPublishRequests_keeps (T : Transport τ) (w : Open62541AsyncBackend τ)
    (h : w.m_uaclient = false ∨ w.m_subscriptions = [] ∨
      (T.runAsync w.transport).1 ≠ UaStatusCode.BadServerNotConnected) :
    (modifyPublishRequests T w).m_subscriptions = w.m_subscriptions ∧
    (modifyPublishRequests T w).m_attributeMapping = w.m_attributeMapping ∧
    (modifyPublishRequests T w).m_minPublishingInterval = w.m_minPublishingInterval := by
  unfold modifyPublishRequests sendPublishRequest cleanupSubscriptions
  by_cases h0 : w.m_subscriptions.length = 0
  · simp [h0]
  · by_cases h1 : w.m_uaclient = false
    · simp [h0, h1]
    · by_cases h2 : (T.runAsync w.transport).1 = UaStatusCode.BadServerNotConnected
      · rcases h with h | h | h
        · exact absurd h h1
        · simp [h] at h0
        · exact absurd h2 h
      · simp [h0, h1, h2]

theorem modifyPublishRequests_purges (T : Transport τ) (w : Open62541AsyncBackend τ)
    (h1 : w.m_uaclient = true) (h2 : w.m_subscriptions ≠ [])
    (h3 : (T.runAsync w.transport).1 = UaStatusCode.BadServerNotConnected) :
    (modifyPublishRequests T w).m_subscriptions = [] ∧
    (modifyPublishRequests T w).m_attributeMapping = [] ∧
    (modifyPublishRequests T w).m_minPublishingInterval = 0 ∧
    (modifyPublishRequests T w).m_sendPublishRequests = false := by
  unfold modifyPublishRequests sendPublishRequest cleanupSubscriptions
  have h0 : ¬ w.m_subscriptions.length = 0 := by
    intro h; exact h2 (List.length_eq_zero.mp h)
  simp [h0, h1, h3]

theorem modifyPublishRequests_cases (T : Transport τ) (w : Open62541AsyncBackend τ) :
    ((modifyPublishRequests T w).m_subscriptions = w.m_subscriptions ∧
      (modifyPublishRequests T w).m_attributeMapping = w.m_attributeMapping) ∨
    ((modifyPublishRequests T w).m_subscriptions = [] ∧
      (modifyPublishRequests T w).m_attributeMapping = []) := by
  by_cases h : w.m_uaclient = false ∨ w.m_subscriptions = [] ∨
      (T.runAsync w.transport).1 ≠ UaStatusCode.BadServerNotConnected
  · exact Or.inl ⟨(modifyPublishRequests_keeps T w h).1, (modifyPublishRequests_keeps T w h).2.1⟩
  · simp only [not_or, Bool.not_eq_false, ne_eq, not_not] at h
    obtain ⟨h1, h2, h3⟩ := h
    exact Or.inr ⟨(modifyPublishRequests_purges T w h1 h2 h3).1,
      (modifyPublishRequests_purges T w h1 h2 h3).2.1⟩

/-- After the pump policy was re-evaluated the pump flag is set exactly when the
subscription index is not empty. -/
theorem modifyPublishRequests_pump (T : Transport τ) (w : Open62541AsyncBackend τ) :
    PumpMatchesIndex (modifyPublishRequests T w) := by
  unfold PumpMatchesIndex modifyPublishRequests sendPublishRequest cleanupSubscriptions
  by_cases h0 : w.m_subscriptions.length = 0
  · have : w.m_subscriptions = [] := List.length_eq_zero.mp h0
    simp [h0, this]
  · have hne : w.m_subscriptions ≠ [] := fun h => h0 (by simp [h])
    by_cases h1 : w.m_uaclient = false
    · simp [h0, h1, hne]
    · by_cases h2 : (T.runAsync w.transport).1 = UaStatusCode.BadServerNotConnected
      · simp [h0, h1, h2]
      · simp [h0, h1, h2, hne]

/-- A pump step keeps the pump invariant. -/
theorem sendPublishRequest_pump (T : Transport τ) (w : Open62541AsyncBackend τ)
    (h : PumpMatchesIndex w) : PumpMatchesIndex (sendPublishRequest T w) := by
  unfold PumpMatchesIndex sendPublishRequest cleanupSubscriptions at *
  by_cases h1 : w.m_uaclient = false
  · simp [h1, h]
  · by_cases h2 : w.m_sendPublishRequests = false
    · simpa [h1, h2] using h
    · by_cases h3 : (T.runAsync w.transport).1 = UaStatusCode.BadServerNotConnected
      · simp [h1, h2, h3]
      · simpa [h1, h2, h3] using h

/-! ### `disableMonitoring` of attributes that are not monitored -/

theorem disableStep_unregistered (T : Transport τ) (handle : Nat) (w : Open62541AsyncBackend τ)
    (a : NodeAttribute) (h : getSubscriptionForItem w handle a = none) :
    disableStep T handle w a = w := by
  unfold disableStep
  rw [h]

theorem disableLoop_unregistered (T : Transport τ) (handle : Nat) (l : List NodeAttribute)
    (w : Open62541AsyncBackend τ) (h : ∀ a ∈ l, getSubscriptionForItem w handle a = none) :
    l.foldl (disableStep T handle) w = w := by
  induction l with
  | nil => rfl
  | cons a l ih =>
    rw [List.foldl_cons, disableStep_unregistered T handle w a (h a (List.mem_cons_self a l))]
    exact ih (fun b hb => h b (List.mem_cons_of_mem a hb))

/-- C4 (amended): when no attribute of the set is registered for the handle,
`disableMonitoring` emits no signal and its loop changes nothing: the state afterwards
is the one the pump re-evaluation `modifyPublishRequests`, which is always run, makes of
the state before. When no pump step runs (no client, or no subscription) or the pump step
does not report `BadServerNotConnected`, the subscription index, the attribute mapping
and the watermark are unchanged; when the pump step reports `BadServerNotConnected`, all
subscriptions are purged. The pump flag afterwards is set exactly when the index is not
empty, so it is unchanged when it agreed with the index before. -/
theorem disableMonitoring_unregistered (T : Transport τ) (w : Open62541AsyncBackend τ)
    (handle : Nat) (attr : NodeAttributes)
    (hnone : ∀ a ∈ qt_forEachAttribute attr, getSubscriptionForItem w handle a = none) :
    disableMonitoring T w handle attr = modifyPublishRequests T w ∧
    (disableMonitoring T w handle attr).signals = w.signals ∧
    ((w.m_uaclient = false ∨ w.m_subscriptions = [] ∨
        (T.runAsync w.transport).1 ≠ UaStatusCode.BadServerNotConnected) →
      (disableMonitoring T w handle attr).m_subscriptions = w.m_subscriptions ∧
      (disableMonitoring T w handle attr).m_attributeMapping = w.m_attributeMapping ∧
      (disableMonitoring T w handle attr).m_minPublishingInterval = w.m_minPublishingInterval) ∧
    ((w.m_uaclient = true ∧ w.m_subscriptions ≠ [] ∧
        (T.runAsync w.transport).1 = UaStatusCode.BadServerNotConnected) →
      (disableMonitoring T w handle attr).m_subscriptions = [] ∧
      (disableMonitoring T w handle attr).m_attributeMapping = [] ∧
      (disableMonitoring T w handle attr).m_minPublishingInterval = 0) ∧
    PumpMatchesIndex (disableMonitoring T w handle attr) ∧
    (PumpMatchesIndex w →
      (w.m_uaclient = false ∨ w.m_subscriptions = [] ∨
        (T.runAsync w.transport).1 ≠ UaStatusCode.BadServerNotConnected) →
      (disableMonitoring T w handle attr).m_sendPublishRequests = w.m_sendPublishRequests) := by
  have e : disableMonitoring T w handle attr = modifyPublishRequests T w := by
    unfold disableMonitoring
    rw [disableLoop_unregistered T handle _ w hnone]
  rw [e]
  refine ⟨rfl, modifyPublishRequests_signals T w, modifyPublishRequests_keeps T w, ?_,
    modifyPublishRequests_pump T w, ?_⟩
  · rintro ⟨h1, h2, h3⟩
    obtain ⟨a, b, c, _⟩ := modifyPublishRequests_purges T w h1 h2 h3
    exact ⟨a, b, c⟩
  · intro hp hk
    have hk1 := (modifyPublishRequests_keeps T w hk).1
    have hp2 := modifyPublishRequests_pump T w
    unfold PumpMatchesIndex at hp hp2
    rw [hk1] at hp2
    cases h1 : (modifyPublishRequests T w).m_sendPublishRequests <;>
      cases h2 : w.m_sendPublishRequests <;> simp_all

end SubscriptionProperties

/-- Instance of C4 (amended): handle 2 has nothing registered on `monitoring`; with a
connected server `disableMonitoring` for it emits nothing and keeps subscription 7. -/
theorem disableMonitoring_unregistered_witness :
    (∀ a ∈ qt_forEachAttribute NodeAttribute.Value,
      getSubscriptionForItem Example.monitoring 2 a = none) ∧
    (disableMonitoring Example.transportOk Example.monitoring 2 NodeAttribute.Value).signals
      = Example.monitoring.signals ∧
    (disableMonitoring Example.transportOk Example.monitoring 2 NodeAttribute.Value).m_subscriptions
      = [(7, { interval := 100, shared := SubscriptionType.Shared,
               items := [(1, NodeAttribute.DisplayName), (1, NodeAttribute.Value)] })] :=
  ⟨by decide,
   (disableMonitoring_unregistered Example.transportOk Example.monitoring 2 NodeAttribute.Value
      (by decide)).2.1,
   ((disableMonitoring_unregistered Example.transportOk Example.monitoring 2 NodeAttribute.Value
      (by decide)).2.2.1 (Or.inr (Or.inr (by decide)))).1⟩

/-- C4 (as stated) fails. On `monitoring` (subscription 7 holds the items of handle 1,
the pump runs) handle 2 has no registered attribute, yet `disableMonitoring` for handle 2
runs a pump step, and when that step reports `BadServerNotConnected` the index and the
mapping are emptied. On `reconnected` (empty index, pump flag still set) the same call
clears the pump flag. -/
theorem disableMonitoring_unregistered_changes_state :
    (∀ a ∈ qt_forEachAttribute NodeAttribute.Value,
      getSubscriptionForItem Example.monitoring 2 a = none) ∧
    Example.monitoring.m_subscriptions ≠ [] ∧
    (disableMonitoring Example.transportNotConnected Example.monitoring 2
      NodeAttribute.Value).m_subscriptions = [] ∧
    Example.monitoring.m_attributeMapping ≠ [] ∧
    (disableMonitoring Example.transportNotConnected Example.monitoring 2
      NodeAttribute.Value).m_attributeMapping = [] ∧
    (∀ a ∈ qt_forEachAttribute NodeAttribute.Value,
      getSubscriptionForItem Example.reconnected 2 a = none) ∧
    Example.reconnected.m_sendPublishRequests = true ∧
    (disableMonitoring Example.transportOk Example.reconnected 2
      NodeAttribute.Value).m_sendPublishRequests = false := by
  decide

/-- C5: at `monitoring` the pump flag is set and the index is not empty. After
`disconnectFromEndpoint`, after `connectToEndpoint` and after the state callback for a
lost connection the index is empty and the pump flag is still set: `cleanupSubscriptions`
does not clear it and none of the three callers does. -/
theorem cleanup_leaves_pump_flag_set :
    (Example.monitoring.m_sendPublishRequests = true ∧ Example.monitoring.m_subscriptions ≠ []) ∧
    ((disconnectFromEndpoint Example.transportOk Example.monitoring).m_subscriptions = [] ∧
      (disconnectFromEndpoint Example.transportOk Example.monitoring).m_sendPublishRequests
        = true) ∧
    ((connectToEndpoint Example.transportOk Example.monitoring false).m_subscriptions = [] ∧
      (connectToEndpoint Example.transportOk Example.monitoring false).m_sendPublishRequests
        = true ∧
      (connectToEndpoint Example.transportOk Example.monitoring false).m_uaclient = true) ∧
    ((clientStateCallback Example.monitoring UA_CLIENTSTATE_DISCONNECTED).m_subscriptions = [] ∧
      (clientStateCallback Example.monitoring UA_CLIENTSTATE_DISCONNECTED).m_sendPublishRequests
        = true) := by
  decide

end Open62541AsyncBackend

namespace Open62541AsyncBackend

section Consistency

variable {τ : Type}

/-! ### Consistency of the attribute mapping with the monitored items -/

theorem Consistent_congr (w1 w2 : Open62541AsyncBackend τ)
    (hs : w2.m_subscriptions = w1.m_subscriptions)
    (hm : w2.m_attributeMapping = w1.m_attributeMapping) (h : Consistent w1) : Consistent w2 := by
  unfold Consistent at *
  simp only [getSubscriptionForItem_eq_lookupItem] at *
  rw [hs, hm]
  exact h

theorem Consistent_empty (w : Open62541AsyncBackend τ) (hs : w.m_subscriptions = [])
    (hm : w.m_attributeMapping = []) : Consistent w := by
  unfold Consistent
  simp only [getSubscriptionForItem_eq_lookupItem]
  rw [hs, hm]
  constructor
  · intro handle attr sub h
    simp [lookupItem, QHash.find] at h
  · intro sub s handle attr h
    simp [QHash.find] at h

theorem modifyPublishRequests_consistent (T : Transport τ) (w : Open62541AsyncBackend τ)
    (h : Consistent w) : Consistent (modifyPublishRequests T w) := by
  rcases modifyPublishRequests_cases T w with ⟨hs, hm⟩ | ⟨hs, hm⟩
  · exact Consistent_congr w _ hs hm h
  · exact Consistent_empty _ hs hm

/-- Taking a subscription without items out of the index keeps consistency. -/
theorem Consistent_remove_empty (w w2 : Open62541AsyncBackend τ) (sub : Nat)
    (h : Consistent w) (hempty : ∀ s, w.m_subscriptions.find sub = some s → s.items = [])
    (hs : w2.m_subscriptions = w.m_subscriptions.remove sub)
    (hm : w2.m_attributeMapping = w.m_attributeMapping) : Consistent w2 := by
  unfold Consistent at *
  simp only [getSubscriptionForItem_eq_lookupItem] at *
  rw [hs, hm]
  obtain ⟨h1, h2⟩ := h
  constructor
  · intro handle attr q hq
    obtain ⟨s, hf, hi⟩ := h1 handle attr q hq
    have hne : q ≠ sub := by
      intro e
      subst e
      have := hempty s hf
      rw [this] at hi
      simp at hi
    exact ⟨s, by rw [QHash.find_remove, if_neg hne]; exact hf, hi⟩
  · intro q s handle attr hf hi
    rw [QHash.find_remove] at hf
    by_cases e : q = sub
    · simp [e] at hf
    · rw [if_neg e] at hf
      exact h2 q s handle attr hf hi

/-- The index and the mapping after `removeSubscription`: nothing changed (no such
subscription), the subscription is gone, or everything was purged by the pump step. -/
theorem removeSubscription_cases (T : Transport τ) (w : Open62541AsyncBackend τ) (sub : Nat) :
    ((removeSubscription T w sub).2.m_subscriptions = w.m_subscriptions ∧
      w.m_subscriptions.find sub = none ∧
      (removeSubscription T w sub).2.m_attributeMapping = w.m_attributeMapping) ∨
    ((removeSubscription T w sub).2.m_subscriptions = w.m_subscriptions.remove sub ∧
      (removeSubscription T w sub).2.m_attributeMapping = w.m_attributeMapping) ∨
    ((removeSubscription T w sub).2.m_subscriptions = [] ∧
      (removeSubscription T w sub).2.m_attributeMapping = []) := by
  unfold removeSubscription
  cases hf : w.m_subscriptions.find sub with
  | none => exact Or.inl ⟨rfl, rfl, rfl⟩
  | some s =>
    simp only
    rcases modifyPublishRequests_cases T
      { w with transport := T.deleteSubscription w.transport sub,
               calls := w.calls ++ [TransportCall.subscriptions_delete sub],
               m_subscriptions := w.m_subscriptions.remove sub } with ⟨hs, hm⟩ | ⟨hs, hm⟩
    · exact Or.inr (Or.inl ⟨hs, hm⟩)
    · exact Or.inr (Or.inr ⟨hs, hm⟩)

theorem removeSubscription_consistent (T : Transport τ) (w : Open62541AsyncBackend τ) (sub : Nat)
    (h : Consistent w) (hempty : ∀ s, w.m_subscriptions.find sub = some s → s.items = []) :
    Consistent (removeSubscription T w sub).2 := by
  rcases removeSubscription_cases T w sub with ⟨hs, _, hm⟩ | ⟨hs, hm⟩ | ⟨hs, hm⟩
  · exact Consistent_congr w _ hs hm h
  · exact Consistent_remove_empty w _ sub h hempty hs hm
  · exact Consistent_empty _ hs hm

theorem monitoredItemsCount_zero (w : Open62541AsyncBackend τ) (sub : Nat)
    (h : monitoredItemsCount w sub = 0) :
    ∀ s, w.m_subscriptions.find sub = some s → s.items = [] := by
  intro s hs
  unfold monitoredItemsCount at h
  rw [hs] at h
  exact List.length_eq_zero.mp h

/-- Removing a mapped item from its subscription and from the mapping keeps consistency. -/
theorem Consistent_remove_item (w w2 : Open62541AsyncBackend τ) (handle : Nat)
    (a : NodeAttribute) (p : Nat) (h : Consistent w)
    (hp : lookupItem w.m_attributeMapping handle a = some p)
    (hs : w2.m_subscriptions = w.m_subscriptions.modify p (fun s =>
      { s with items := s.items.filter (fun it => decide (it ≠ (handle, a))) }))
    (hm : ∀ h2 a2, lookupItem w2.m_attributeMapping h2 a2
      = if h2 = handle ∧ a2 = a then none else lookupItem w.m_attributeMapping h2 a2) :
    Consistent w2 := by
  unfold Consistent at *
  simp only [getSubscriptionForItem_eq_lookupItem] at *
  obtain ⟨h1, h2⟩ := h
  rw [hs]
  constructor
  · intro h' a' q hq
    rw [hm] at hq
    by_cases e : h' = handle ∧ a' = a
    · simp [e] at hq
    · rw [if_neg e] at hq
      obtain ⟨s, hf, hi⟩ := h1 h' a' q hq
      rw [QHash.find_modify, hf]
      have hne : (h', a') ≠ (handle, a) := by
        intro e2
        simp only [Prod.mk.injEq] at e2
        exact e e2
      by_cases eq : q = p
      · refine ⟨_, by rw [if_pos eq]; rfl, ?_⟩
        simp only [List.mem_filter, decide_eq_true_eq]
        exact ⟨hi, hne⟩
      · exact ⟨s, by rw [if_neg eq], hi⟩
  · intro q s h' a' hf hi
    rw [QHash.find_modify] at hf
    rw [hm]
    by_cases eq : q = p
    · rw [if_pos eq] at hf
      cases hfq : w.m_subscriptions.find q with
      | none => rw [hfq] at hf; simp at hf
      | some s0 =>
        rw [hfq] at hf
        simp only [Option.map_some', Option.some.injEq] at hf
        subst hf
        simp only [List.mem_filter, decide_eq_true_eq, ne_eq, Prod.mk.injEq] at hi
        rw [if_neg hi.2]
        exact h2 q s0 h' a' hfq hi.1
    · rw [if_neg eq] at hf
      have hq := h2 q s h' a' hf hi
      by_cases e : h' = handle ∧ a' = a
      · obtain ⟨e1, e2⟩ := e
        subst e1 e2
        rw [hp] at hq
        simp only [Option.some.injEq] at hq
        exact absurd hq.symm eq
      · rw [if_neg e]
        exact hq

/-- Adding an item that is not mapped to an indexed subscription and mapping it to that
subscription keeps consistency. -/
theorem Consistent_add_item (w w2 : Open62541AsyncBackend τ) (handle : Nat)
    (a : NodeAttribute) (used : Nat) (h : Consistent w)
    (hun : lookupItem w.m_attributeMapping handle a = none)
    (hused : ∃ s, w.m_subscriptions.find used = some s)
    (hs : w2.m_subscriptions = w.m_subscriptions.modify used (fun s =>
      { s with items := if (handle, a) ∈ s.items then s.items else s.items ++ [(handle, a)] }))
    (hm : ∀ h2 a2, lookupItem w2.m_attributeMapping h2 a2
      = if h2 = handle ∧ a2 = a then some used else lookupItem w.m_attributeMapping h2 a2) :
    Consistent w2 := by
  unfold Consistent at *
  simp only [getSubscriptionForItem_eq_lookupItem] at *
  obtain ⟨h1, h2⟩ := h
  obtain ⟨su, hsu⟩ := hused
  rw [hs]
  have hgrow : ∀ (s : QOpen62541Subscription) (x : MonitoredItemKey), x ∈ s.items →
      x ∈ (if (handle, a) ∈ s.items then s.items else s.items ++ [(handle, a)]) := by
    intro s x hx
    split_ifs
    · exact hx
    · exact List.mem_append_left _ hx
  constructor
  · intro h' a' q hq
    rw [hm] at hq
    by_cases e : h' = handle ∧ a' = a
    · rw [if_pos e] at hq
      simp only [Option.some.injEq] at hq
      subst hq
      obtain ⟨e1, e2⟩ := e
      subst e1 e2
      rw [QHash.find_modify, if_pos rfl, hsu]
      refine ⟨_, rfl, ?_⟩
      simp only
      split_ifs with hin
      · exact hin
      · simp
    · rw [if_neg e] at hq
      obtain ⟨s, hf, hi⟩ := h1 h' a' q hq
      rw [QHash.find_modify, hf]
      by_cases eq : q = used
      · exact ⟨_, by rw [if_pos eq]; rfl, hgrow s _ hi⟩
      · exact ⟨s, by rw [if_neg eq], hi⟩
  · intro q s h' a' hf hi
    rw [QHash.find_modify] at hf
    rw [hm]
    by_cases e : h' = handle ∧ a' = a
    · rw [if_pos e]
      obtain ⟨e1, e2⟩ := e
      subst e1 e2
      by_cases eq : q = used
      · rw [eq]
      · rw [if_neg eq] at hf
        have := h2 q s h' a' hf hi
        rw [hun] at this
        simp at this
    · rw [if_neg e]
      by_cases eq : q = used
      · rw [if_pos eq] at hf
        subst eq
        rw [hsu] at hf
        simp only [Option.map_some', Option.some.injEq] at hf
        subst hf
        simp only at hi
        have hi2 : (h', a') ∈ su.items := by
          split_ifs at hi with hin
          · exact hi
          · rcases List.mem_append.mp hi with hi | hi
            · exact hi
            · simp only [List.mem_singleton, Prod.mk.injEq] at hi
              exact absurd hi e
        exact h2 q su h' a' hsu hi2
      · rw [if_neg eq] at hf
        exact h2 q s h' a' hf hi

/-- Changing a subscription without touching its items keeps consistency. -/
theorem Consistent_modify_keep (w w2 : Open62541AsyncBackend τ) (p : Nat)
    (g : QOpen62541Subscription → QOpen62541Subscription) (hg : ∀ s, (g s).items = s.items)
    (h : Consistent w) (hs : w2.m_subscriptions = w.m_subscriptions.modify p g)
    (hm : w2.m_attributeMapping = w.m_attributeMapping) : Consistent w2 := by
  unfold Consistent at *
  simp only [getSubscriptionForItem_eq_lookupItem] at *
  obtain ⟨h1, h2⟩ := h
  rw [hs, hm]
  constructor
  · intro h' a' q hq
    obtain ⟨s, hf, hi⟩ := h1 h' a' q hq
    rw [QHash.find_modify, hf]
    by_cases eq : q = p
    · exact ⟨g s, by rw [if_pos eq]; rfl, by rw [hg]; exact hi⟩
    · exact ⟨s, by rw [if_neg eq], hi⟩
  · intro q s h' a' hf hi
    rw [QHash.find_modify] at hf
    by_cases eq : q = p
    · rw [if_pos eq] at hf
      cases hfq : w.m_subscriptions.find q with
      | none => rw [hfq] at hf; simp at hf
      | some s0 =>
        rw [hfq] at hf
        simp only [Option.map_some', Option.some.injEq] at hf
        subst hf
        rw [hg] at hi
        exact h2 q s0 h' a' hfq hi
    · rw [if_neg eq] at hf
      exact h2 q s h' a' hf hi

/-- Storing a subscription without items under an id that is not in use keeps consistency. -/
theorem Consistent_insert_fresh (w w2 : Open62541AsyncBackend τ) (id : Nat)
    (sub : QOpen62541Subscription) (h : Consistent w)
    (hfresh : w.m_subscriptions.find id = none) (hitems : sub.items = [])
    (hs : w2.m_subscriptions = w.m_subscriptions.insert id sub)
    (hm : w2.m_attributeMapping = w.m_attributeMapping) : Consistent w2 := by
  unfold Consistent at *
  simp only [getSubscriptionForItem_eq_lookupItem] at *
  obtain ⟨h1, h2⟩ := h
  rw [hs, hm]
  constructor
  · intro h' a' q hq
    obtain ⟨s, hf, hi⟩ := h1 h' a' q hq
    have hne : q ≠ id := by
      intro e
      rw [e, hfresh] at hf
      simp at hf
    exact ⟨s, by rw [QHash.find_insert, if_neg hne]; exact hf, hi⟩
  · intro q s h' a' hf hi
    rw [QHash.find_insert] at hf
    by_cases eq : q = id
    · rw [if_pos eq] at hf
      simp only [Option.some.injEq] at hf
      subst hf
      rw [hitems] at hi
      simp at hi
    · rw [if_neg eq] at hf
      exact h2 q s h' a' hf hi

/-- Dropping an indexed subscription together with exactly its items keeps consistency. -/
theorem Consistent_timeout (w w2 : Open62541AsyncBackend τ) (sub : Nat)
    (s : QOpen62541Subscription) (items : List MonitoredItemKey) (h : Consistent w)
    (hf : w.m_subscriptions.find sub = some s) (hitems : ∀ x, x ∈ items ↔ x ∈ s.items)
    (hs : w2.m_subscriptions = w.m_subscriptions.remove sub)
    (hm : ∀ h2 a2, lookupItem w2.m_attributeMapping h2 a2
      = if (h2, a2) ∈ items then none else lookupItem w.m_attributeMapping h2 a2) :
    Consistent w2 := by
  unfold Consistent at *
  simp only [getSubscriptionForItem_eq_lookupItem] at *
  obtain ⟨h1, h2⟩ := h
  rw [hs]
  constructor
  · intro h' a' q hq
    rw [hm] at hq
    by_cases e : (h', a') ∈ items
    · simp [e] at hq
    · rw [if_neg e] at hq
      obtain ⟨s2, hf2, hi⟩ := h1 h' a' q hq
      have hne : q ≠ sub := by
        intro eq
        subst eq
        rw [hf] at hf2
        simp only [Option.some.injEq] at hf2
        subst hf2
        exact e ((hitems _).mpr hi)
      exact ⟨s2, by rw [QHash.find_remove, if_neg hne]; exact hf2, hi⟩
  · intro q s2 h' a' hf2 hi
    rw [QHash.find_remove] at hf2
    by_cases eq : q = sub
    · simp [eq] at hf2
    · rw [if_neg eq] at hf2
      have hq := h2 q s2 h' a' hf2 hi
      rw [hm]
      by_cases e : (h', a') ∈ items
      · have := h2 sub s h' a' hf ((hitems _).mp e)
        rw [hq] at this
        simp only [Option.some.injEq] at this
        exact absurd this eq
      · rw [if_neg e]
        exact hq

/-! ### The operations keep consistency -/

theorem disableStep_consistent (T : Transport τ) (handle : Nat) (w : Open62541AsyncBackend τ)
    (a : NodeAttribute) (h : Consistent w) : Consistent (disableStep T handle w a) := by
  unfold disableStep
  cases hp : getSubscriptionForItem w handle a with
  | none => exact h
  | some p =>
    simp only
    have hc : Consistent (removeMapping (removeAttributeMonitoredItem T w p handle a) handle a) :=
      Consistent_remove_item w _ handle a p h hp rfl
        (fun h2 a2 => lookupItem_removeMapping _ handle a h2 a2)
    split_ifs with h0
    · exact removeSubscription_consistent T _ p hc (monitoredItemsCount_zero _ p h0)
    · exact hc

theorem disableLoop_consistent (T : Transport τ) (handle : Nat) (l : List NodeAttribute) :
    ∀ w : Open62541AsyncBackend τ, Consistent w → Consistent (l.foldl (disableStep T handle) w) := by
  induction l with
  | nil => intro w h; exact h
  | cons a l ih =>
    intro w h
    rw [List.foldl_cons]
    exact ih _ (disableStep_consistent T handle w a h)

theorem disableMonitoring_consistent (T : Transport τ) (w : Open62541AsyncBackend τ)
    (handle : Nat) (attr : NodeAttributes) (h : Consistent w) :
    Consistent (disableMonitoring T w handle attr) := by
  unfold disableMonitoring
  exact modifyPublishRequests_consistent T _ (disableLoop_consistent T handle _ w h)

theorem enableStep_consistent (T : Transport τ) (handle : Nat) (id : UA_NodeId)
    (settings : QOpcUaMonitoringParameters) (used : Nat) (w : Open62541AsyncBackend τ)
    (a : NodeAttribute) (h : Consistent w) (hused : ∃ s, w.m_subscriptions.find used = some s) :
    Consistent (enableStep T handle id settings used w a) ∧
    ∃ s, (enableStep T handle id settings used w a).m_subscriptions.find used = some s := by
  unfold enableStep
  cases hp : getSubscriptionForItem w handle a with
  | some p => exact ⟨Consistent_congr w _ rfl rfl h, hused⟩
  | none =>
    simp only [Option.isSome_none, Bool.false_eq_true, if_false]
    unfold addAttributeMonitoredItem
    by_cases hg : (T.createMonitoredItem w.transport used handle a id settings).1
        = UaStatusCode.Good
    · simp only [hg, if_true]
      constructor
      · exact Consistent_add_item w _ handle a used h hp hused rfl
          (fun h2 a2 => lookupItem_setMapping _ handle a used h2 a2)
      · obtain ⟨s, hs⟩ := hused
        have e : ∀ x : Open62541AsyncBackend τ,
            (setMapping x handle a used).m_subscriptions = x.m_subscriptions := fun _ => rfl
        rw [e]
        simp only
        rw [QHash.find_modify, if_pos rfl, hs]
        exact ⟨_, rfl⟩
    · simp only [hg, if_false]
      exact ⟨Consistent_congr w _ rfl rfl h, hused⟩

theorem enableLoop_consistent (T : Transport τ) (handle : Nat) (id : UA_NodeId)
    (settings : QOpcUaMonitoringParameters) (used : Nat) (l : List NodeAttribute) :
    ∀ w : Open62541AsyncBackend τ, Consistent w → (∃ s, w.m_subscriptions.find used = some s) →
      Consistent (l.foldl (enableStep T handle id settings used) w) := by
  induction l with
  | nil => intro w h _; exact h
  | cons a l ih =>
    intro w h hused
    rw [List.foldl_cons]
    obtain ⟨h1, h2⟩ := enableStep_consistent T handle id settings used w a h hused
    exact ih _ h1 h2

theorem QHash_find_of_mem (m : QHash Nat QOpen62541Subscription)
    (e : Nat × QOpen62541Subscription) (h : e ∈ m) : ∃ s, m.find e.1 = some s := by
  induction m with
  | nil => simp at h
  | cons e1 m ih =>
    obtain ⟨k1, v1⟩ := e1
    simp only [QHash.find]
    by_cases hk : k1 = e.1
    · exact ⟨v1, by rw [if_pos hk]⟩
    · rw [if_neg hk]
      rcases List.mem_cons.mp h with h | h
      · subst h
        exact absurd rfl hk
      · exact ih h

/-- What `resolveSubscription` leaves alone, and what it returns. -/
theorem resolveSubscription_spec (env : QOpcUaBackend) (T : Transport τ)
    (w : Open62541AsyncBackend τ) (settings : QOpcUaMonitoringParameters) :
    (resolveSubscription env T w settings).2.signals = w.signals ∧
    (resolveSubscription env T w settings).2.m_attributeMapping = w.m_attributeMapping ∧
    (resolveSubscription env T w settings).2.m_sendPublishRequests = w.m_sendPublishRequests ∧
    (resolveSubscription env T w settings).2.m_uaclient = w.m_uaclient ∧
    ((resolveSubscription env T w settings).1 = none →
      (resolveSubscription env T w settings).2.m_subscriptions = w.m_subscriptions ∧
      (resolveSubscription env T w settings).2.m_minPublishingInterval
        = w.m_minPublishingInterval) ∧
    (∀ used, (resolveSubscription env T w settings).1 = some used →
      (∃ s, (resolveSubscription env T w settings).2.m_subscriptions.find used = some s) ∧
      ((resolveSubscription env T w settings).2.m_subscriptions = w.m_subscriptions ∨
        ((resolveSubscription env T w settings).2.m_subscriptions
            = w.m_subscriptions.insert used
                { interval := (T.createSubscription w.transport settings).1.2,
                  shared := settings.shared, items := [] } ∧
          used = (T.createSubscription w.transport settings).1.1 ∧ used ≠ 0))) := by
  unfold resolveSubscription
  by_cases hid : settings.subscriptionId ≠ 0
  · rw [if_pos hid]
    cases hf : w.m_subscriptions.find settings.subscriptionId with
    | none => simp
    | some s =>
      refine ⟨rfl, rfl, rfl, rfl, by simp, ?_⟩
      intro used hu
      simp only [Option.some.injEq] at hu
      subst hu
      exact ⟨⟨s, hf⟩, Or.inl rfl⟩
  · rw [if_neg hid]
    unfold getSubscription
    simp only
    split
    · rename_i entry hfound
      refine ⟨rfl, rfl, rfl, rfl, by simp, ?_⟩
      intro used hu
      simp only [Option.some.injEq] at hu
      subst hu
      refine ⟨?_, Or.inl rfl⟩
      split_ifs at hfound with hsh
      exact QHash_find_of_mem _ entry (List.mem_of_find?_eq_some hfound)
    · by_cases h0 : (T.createSubscription w.transport settings).1.1 = 0
      · simp [h0]
      · rw [if_neg h0]
        refine ⟨rfl, rfl, rfl, rfl, by simp, ?_⟩
        intro used hu
        simp only [Option.some.injEq] at hu
        subst hu
        refine ⟨?_, Or.inr ⟨rfl, rfl, h0⟩⟩
        exact ⟨_, by rw [QHash.find_insert, if_pos rfl]⟩

theorem enableMonitoring_consistent (env : QOpcUaBackend) (T : Transport τ)
    (w : Open62541AsyncBackend τ) (handle : Nat) (id : UA_NodeId) (attr : NodeAttributes)
    (settings : QOpcUaMonitoringParameters) (h : Consistent w)
    (hfresh : (T.createSubscription w.transport settings).1.1 = 0 ∨
      w.m_subscriptions.find (T.createSubscription w.transport settings).1.1 = none) :
    Consistent (enableMonitoring env T w handle id attr settings) := by
  obtain ⟨_, hm, _, _, hnone, hsome⟩ := resolveSubscription_spec env T w settings
  unfold enableMonitoring
  cases hr : resolveSubscription env T w settings with
  | mk o w1 =>
    rw [hr] at hm hnone hsome
    simp only at hm hnone hsome
    cases o with
    | none =>
      simp only
      exact Consistent_congr w _ (hnone rfl).1 hm h
    | some used =>
      simp only
      obtain ⟨hused, hsubs⟩ := hsome used rfl
      have hc1 : Consistent w1 := by
        rcases hsubs with hsubs | ⟨hsubs, hid, h0⟩
        · exact Consistent_congr w _ hsubs hm h
        · rcases hfresh with hf | hf
          · rw [← hid] at hf
            exact absurd hf h0
          · rw [← hid] at hf
            exact Consistent_insert_fresh w w1 used _ h hf rfl hsubs hm
      have hc2 := enableLoop_consistent T handle id settings used (qt_forEachAttribute attr)
        w1 hc1 hused
      apply modifyPublishRequests_consistent
      split_ifs with h0
      · exact removeSubscription_consistent T _ used hc2 (monitoredItemsCount_zero _ used h0)
      · exact hc2

theorem modifyMonitoring_consistent (T : Transport τ) (w : Open62541AsyncBackend τ)
    (handle : Nat) (attr : NodeAttribute) (item : Nat) (value : QVariant) (h : Consistent w) :
    Consistent (modifyMonitoring T w handle attr item value) := by
  unfold modifyMonitoring
  cases hp : getSubscriptionForItem w handle attr with
  | none => exact Consistent_congr w _ rfl rfl h
  | some p =>
    simp only
    apply modifyPublishRequests_consistent
    refine Consistent_modify_keep w _ p
      (fun s => match (T.modifyMonitoredItem w.transport p handle attr item value).1.2 with
        | some revised => { s with interval := revised }
        | none => s) ?_ h rfl rfl
    intro s
    cases (T.modifyMonitoredItem w.transport p handle attr item value).1.2 <;> rfl

theorem handleSubscriptionTimeout_consistent (T : Transport τ) (w : Open62541AsyncBackend τ)
    (sub : Nat) (s : QOpen62541Subscription) (items : List MonitoredItemKey) (h : Consistent w)
    (hf : w.m_subscriptions.find sub = some s) (hitems : ∀ x, x ∈ items ↔ x ∈ s.items) :
    Consistent (handleSubscriptionTimeout T w sub items) := by
  unfold handleSubscriptionTimeout
  apply modifyPublishRequests_consistent
  exact Consistent_timeout w _ sub s items h hf hitems rfl
    (fun h2 a2 => lookupItem_purge items w.m_attributeMapping h2 a2)

theorem cleanupSubscriptions_consistent (w : Open62541AsyncBackend τ) :
    Consistent (cleanupSubscriptions w) :=
  Consistent_empty _ rfl rfl

/-- C6 (amended): from a consistent state (every entry of the mapping points to a
subscription of the index that holds the item, and every item held by a subscription of
the index is mapped, by the one entry the mapping has for it, to that subscription) the
state is consistent again after `disableMonitoring`, after `modifyMonitoring`, after
`cleanupSubscriptions`, after `enableMonitoring` when the id the server assigns to a new
subscription is not already in the index, and after `handleSubscriptionTimeout` for a
subscription of the index when the delivered list holds exactly the items of that
subscription. -/
theorem consistency_kept (env : QOpcUaBackend) (T : Transport τ) (w : Open62541AsyncBackend τ)
    (h : Consistent w) :
    (∀ handle id attr settings,
      ((T.createSubscription w.transport settings).1.1 = 0 ∨
        w.m_subscriptions.find (T.createSubscription w.transport settings).1.1 = none) →
      Consistent (enableMonitoring env T w handle id attr settings)) ∧
    (∀ handle attr, Consistent (disableMonitoring T w handle attr)) ∧
    (∀ handle attr item value, Consistent (modifyMonitoring T w handle attr item value)) ∧
    (∀ sub s items, w.m_subscriptions.find sub = some s → (∀ x, x ∈ items ↔ x ∈ s.items) →
      Consistent (handleSubscriptionTimeout T w sub items)) ∧
    Consistent (cleanupSubscriptions w) :=
  ⟨fun handle id attr settings hfresh =>
      enableMonitoring_consistent env T w handle id attr settings h hfresh,
   fun handle attr => disableMonitoring_consistent T w handle attr h,
   fun handle attr item value => modifyMonitoring_consistent T w handle attr item value h,
   fun sub s items hf hitems => handleSubscriptionTimeout_consistent T w sub s items h hf hitems,
   cleanupSubscriptions_consistent w⟩

end Consistency

/-- The example state `monitoring` is consistent: it is reached from the empty state. -/
theorem Consistent_monitoring : Consistent Example.monitoring :=
  enableMonitoring_consistent Example.env Example.transportOk Example.connected 1 Example.nodeId
    _ Example.settings (Consistent_empty _ rfl rfl) (Or.inr rfl)

/-- Instance of C6 (amended): `monitoring` is consistent, and so are the states after
disabling the Value item and after a timeout of subscription 7 delivering its two items. -/
theorem consistency_kept_witness :
    Consistent Example.monitoring ∧
    Consistent (disableMonitoring Example.transportOk Example.monitoring 1 NodeAttribute.Value) ∧
    Consistent (handleSubscriptionTimeout Example.transportOk Example.monitoring 7
      [(1, NodeAttribute.DisplayName), (1, NodeAttribute.Value)]) :=
  ⟨Consistent_monitoring,
   (consistency_kept Example.env Example.transportOk Example.monitoring
      Consistent_monitoring).2.1 1 NodeAttribute.Value,
   (consistency_kept Example.env Example.transportOk Example.monitoring
      Consistent_monitoring).2.2.2.1 7
      { interval := 100, shared := SubscriptionType.Shared,
        items := [(1, NodeAttribute.DisplayName), (1, NodeAttribute.Value)] }
      _ (by decide) (fun _ => Iff.rfl)⟩

/-- C6 (as stated) fails: `monitoring` is consistent, subscription 7 holding the items
Value and DisplayName of handle 1. `handleSubscriptionTimeout` for subscription 7 with an
item list that names only the Value item leaves the mapping entry of DisplayName behind,
pointing to subscription 7, which is no longer in the index. And `enableMonitoring` for
handle 2 asking for an exclusive subscription, answered by a server that assigns the id 7
again, stores a new subscription under id 7: the entries of handle 1 then point to a
subscription that does not hold their items. -/
theorem handleSubscriptionTimeout_stale_items_inconsistent :
    Consistent Example.monitoring ∧
    getSubscriptionForItem (handleSubscriptionTimeout Example.transportOk Example.monitoring 7
      [(1, NodeAttribute.Value)]) 1 NodeAttribute.DisplayName = some 7 ∧
    (handleSubscriptionTimeout Example.transportOk Example.monitoring 7
      [(1, NodeAttribute.Value)]).m_subscriptions.find 7 = none ∧
    ¬ Consistent (handleSubscriptionTimeout Example.transportOk Example.monitoring 7
      [(1, NodeAttribute.Value)]) ∧
    ¬ Consistent (enableMonitoring Example.env Example.transportReusingId Example.monitoring 2
      Example.nodeId NodeAttribute.Value Example.settingsExclusive) := by
  refine ⟨Consistent_monitoring, by decide, by decide, ?_, ?_⟩
  · intro hc
    obtain ⟨s, hs, _⟩ := hc.1 1 NodeAttribute.DisplayName 7 (by decide)
    have hnone : (handleSubscriptionTimeout Example.transportOk Example.monitoring 7
        [(1, NodeAttribute.Value)]).m_subscriptions.find 7 = none := by decide
    rw [hnone] at hs
    cases hs
  · intro hc
    obtain ⟨s, hs, hi⟩ := hc.1 1 NodeAttribute.Value 7 (by decide)
    have hnew : (enableMonitoring Example.env Example.transportReusingId Example.monitoring 2
        Example.nodeId NodeAttribute.Value Example.settingsExclusive).m_subscriptions.find 7
        = some { interval := 100, shared := SubscriptionType.Exclusive,
                 items := [(2, NodeAttribute.Value)] } := by decide
    rw [hnew] at hs
    simp only [Option.some.injEq] at hs
    subst hs
    revert hi
    decide

end Open62541AsyncBackend

namespace Open62541AsyncBackend

section Removal

variable {τ : Type}

/-! ### Subscriptions that lose all their items -/

end Removal

end Open62541AsyncBackend

namespace Open62541AsyncBackend

section Duplicates

variable {τ : Type}

/-! ### Registering a pair that is already registered -/

/-- Without a lost connection `removeSubscription` touches only the subscription named. -/
theorem removeSubscription_keeps (T : Transport τ) (w : Open62541AsyncBackend τ) (sub : Nat)
    (hpump : ∀ t, (T.runAsync t).1 ≠ UaStatusCode.BadServerNotConnected) :
    (removeSubscription T w sub).2.m_attributeMapping = w.m_attributeMapping ∧
    ∀ q, q ≠ sub → (removeSubscription T w sub).2.m_subscriptions.find q
      = w.m_subscriptions.find q := by
  unfold removeSubscription
  cases hf : w.m_subscriptions.find sub with
  | none => exact ⟨rfl, fun _ _ => rfl⟩
  | some s =>
    simp only
    obtain ⟨h1, h2, _⟩ := modifyPublishRequests_keeps T
      { w with transport := T.deleteSubscription w.transport sub,
               calls := w.calls ++ [TransportCall.subscriptions_delete sub],
               m_subscriptions := w.m_subscriptions.remove sub }
      (Or.inr (Or.inr (hpump _)))
    rw [h1, h2]
    exact ⟨rfl, fun q hq => by simp only; rw [QHash.find_remove, if_neg hq]⟩

end Duplicates

end Open62541AsyncBackend

namespace Open62541AsyncBackend

section Pump

variable {τ : Type}

/-- The monitoring operations and the pump step keep the pump invariant (the pump flag is
set exactly when the index is not empty). -/
theorem pump_invariant_kept_by_monitoring (env : QOpcUaBackend) (T : Transport τ)
    (w : Open62541AsyncBackend τ) (h : PumpMatchesIndex w) :
    (∀ handle id attr settings, PumpMatchesIndex (enableMonitoring env T w handle id attr settings)) ∧
    (∀ handle attr, PumpMatchesIndex (disableMonitoring T w handle attr)) ∧
    (∀ handle attr item value, PumpMatchesIndex (modifyMonitoring T w handle attr item value)) ∧
    (∀ sub items, PumpMatchesIndex (handleSubscriptionTimeout T w sub items)) ∧
    PumpMatchesIndex (sendPublishRequest T w) := by
  refine ⟨?_, ?_, ?_, ?_, sendPublishRequest_pump T w h⟩
  · intro handle id attr settings
    obtain ⟨_, _, hflag, _, hnone, _⟩ := resolveSubscription_spec env T w settings
    unfold enableMonitoring
    cases hr : resolveSubscription env T w settings with
    | mk o w1 =>
      rw [hr] at hflag hnone
      simp only at hflag hnone
      cases o with
      | none =>
        simp only
        unfold PumpMatchesIndex at *
        simp only
        rw [hflag, (hnone rfl).1]
        exact h
      | some used =>
        simp only
        exact modifyPublishRequests_pump T _
  · intro handle attr
    exact modifyPublishRequests_pump T _
  · intro handle attr item value
    unfold modifyMonitoring
    cases getSubscriptionForItem w handle attr with
    | none => exact h
    | some p => exact modifyPublishRequests_pump T _
  · intro sub items
    exact modifyPublishRequests_pump T _

end Pump

end Open62541AsyncBackend

namespace Open62541AsyncBackend

/-! ### Unknown subscription id -/

/-- C12: an `enableMonitoring` request names a non-zero subscription id that is not in
the index. Then the signals emitted are one `monitoringEnableDisable` per attribute of
the set, in order, each with status `BadSubscriptionIdInvalid`, and nothing else
changes: the index, the mapping, the pump flag, the timer and the watermark are the same
and no transport call is made. -/
theorem enableMonitoring_unknown_subscription_id {τ : Type} (env : QOpcUaBackend)
    (T : Transport τ) (w : Open62541AsyncBackend τ) (handle : Nat) (id : UA_NodeId)
    (attr : NodeAttributes) (settings : QOpcUaMonitoringParameters)
    (hid : settings.subscriptionId ≠ 0)
    (hunknown : w.m_subscriptions.find settings.subscriptionId = none) :
    (enableMonitoring env T w handle id attr settings).signals
      = w.signals ++ (qt_forEachAttribute attr).map (fun a =>
          Signal.monitoringEnableDisable handle a true UaStatusCode.BadSubscriptionIdInvalid) ∧
    (enableMonitoring env T w handle id attr settings).m_subscriptions = w.m_subscriptions ∧
    (enableMonitoring env T w handle id attr settings).m_attributeMapping
      = w.m_attributeMapping ∧
    (enableMonitoring env T w handle id attr settings).m_sendPublishRequests
      = w.m_sendPublishRequests ∧
    (enableMonitoring env T w handle id attr settings).m_subscriptionTimer
      = w.m_subscriptionTimer ∧
    (enableMonitoring env T w handle id attr settings).m_minPublishingInterval
      = w.m_minPublishingInterval ∧
    (enableMonitoring env T w handle id attr settings).calls = w.calls ∧
    (enableMonitoring env T w handle id attr settings).transport = w.transport := by
  have hr : resolveSubscription env T w settings = (none, w) := by
    unfold resolveSubscription
    rw [if_pos hid, hunknown]
  unfold enableMonitoring
  rw [hr]
  exact ⟨rfl, rfl, rfl, rfl, rfl, rfl, rfl, rfl⟩

/-- Instance of C12: on `monitoring` a request for the Value and DisplayName attributes of
handle 2 that names the unknown subscription id 9 emits two `BadSubscriptionIdInvalid`
outcomes and makes no transport call. -/
theorem enableMonitoring_unknown_subscription_id_witness :
    Example.settingsUnknownId.subscriptionId ≠ 0 ∧
    Example.monitoring.m_subscriptions.find Example.settingsUnknownId.subscriptionId = none ∧
    (enableMonitoring Example.env Example.transportOk Example.monitoring 2 Example.nodeId
        (NodeAttribute.Value + NodeAttribute.DisplayName) Example.settingsUnknownId).signals
      = Example.monitoring.signals ++
        [Signal.monitoringEnableDisable 2 NodeAttribute.DisplayName true
           UaStatusCode.BadSubscriptionIdInvalid,
         Signal.monitoringEnableDisable 2 NodeAttribute.Value true
           UaStatusCode.BadSubscriptionIdInvalid] ∧
    (enableMonitoring Example.env Example.transportOk Example.monitoring 2 Example.nodeId
        (NodeAttribute.Value + NodeAttribute.DisplayName) Example.settingsUnknownId).calls
      = Example.monitoring.calls :=
  ⟨by decide, by decide,
   (enableMonitoring_unknown_subscription_id Example.env Example.transportOk Example.monitoring
      2 Example.nodeId (NodeAttribute.Value + NodeAttribute.DisplayName)
      Example.settingsUnknownId (by decide) (by decide)).1,
   (enableMonitoring_unknown_subscription_id Example.env Example.transportOk Example.monitoring
      2 Example.nodeId (NodeAttribute.Value + NodeAttribute.DisplayName)
      Example.settingsUnknownId (by decide) (by decide)).2.2.2.2.2.2.1⟩

/-! ### Write outcomes -/

/-- C16: for every `writeAttributes` request with a non-empty map and every response of
the server, one write request is sent and one `attributeWritten` signal is emitted per
entry of the map, in the map's order: the `i`-th carries the attribute and the value of
the `i`-th entry and the status `results[i]` when the response has an `i`-th result, the
service-level status otherwise. The single-attribute `writeAttribute` emits one such
signal, with `results[0]` when the response has a result and the service-level status
when it has none. -/
theorem writeAttributes_one_outcome_per_entry (vc : QOpen62541ValueConverter)
    (UA_Client_Service_write : UA_WriteRequest → UA_WriteResponse)
    (handle : Nat) (id : UA_NodeId) (toWrite : List (NodeAttribute × QVariant))
    (valueAttributeType : Types) (hne : toWrite ≠ []) :
    (∃ req : UA_WriteRequest,
      (writeAttributes vc UA_Client_Service_write handle id toWrite valueAttributeType).calls
        = [TransportCall.service_write req] ∧
      req.nodesToWrite.length = toWrite.length ∧
      (writeAttributes vc UA_Client_Service_write handle id toWrite valueAttributeType
        ).signals.length = toWrite.length ∧
      ∀ (i : Nat) (entry : NodeAttribute × QVariant), toWrite[i]? = some entry →
        (writeAttributes vc UA_Client_Service_write handle id toWrite valueAttributeType
          ).signals[i]?
          = some (Signal.attributeWritten handle entry.1 entry.2
              ((UA_Client_Service_write req).results.getD i
                (UA_Client_Service_write req).serviceResult))) ∧
    (∀ (attrId : NodeAttribute) (value : QVariant) (type : Types) (indexRange : String),
      ∃ (req : UA_WriteRequest) (status : UaStatusCode),
        (writeAttribute vc UA_Client_Service_write handle id attrId value type indexRange).calls
          = [TransportCall.service_write req] ∧
        req.nodesToWrite.length = 1 ∧
        (writeAttribute vc UA_Client_Service_write handle id attrId value type indexRange).signals
          = [Signal.attributeWritten handle attrId value status] ∧
        status = (UA_Client_Service_write req).results.getD 0
          (UA_Client_Service_write req).serviceResult ∧
        ((UA_Client_Service_write req).results.length = 0 →
          status = (UA_Client_Service_write req).serviceResult)) := by
  constructor
  · have h0 : ¬ toWrite.length = 0 := fun h => hne (List.length_eq_zero.mp h)
    unfold writeAttributes
    rw [if_neg h0]
    refine ⟨_, rfl, by simp, by simp, ?_⟩
    intro i entry hi
    simp only [List.getElem?_mapIdx, hi, Option.map_some', Option.some.injEq,
      Signal.attributeWritten.injEq, true_and]
    rw [List.getD_eq_getElem?_getD]
    cases (UA_Client_Service_write
      { nodesToWrite := toWrite.map (writeValue vc id valueAttributeType) }).results[i]? <;> rfl
  · intro attrId value type indexRange
    unfold writeAttribute
    refine ⟨_, _, rfl, rfl, rfl, ?_, ?_⟩
    · split <;> rename_i h <;> rw [h] <;> rfl
    · intro h
      rw [List.length_eq_zero.mp h]

/-- Instance of C16: a map with two entries, a response with one result: the first
outcome carries that result, the second the service-level status. -/
theorem writeAttributes_one_outcome_per_entry_witness :
    Example.toWrite ≠ [] ∧
    (writeAttributes Example.vc Example.writeOneResult 7 Example.nodeId Example.toWrite 0).signals
      = [Signal.attributeWritten 7 NodeAttribute.DisplayName (QVariant.scalar 1)
           UaStatusCode.Good,
         Signal.attributeWritten 7 NodeAttribute.Value (QVariant.scalar 2)
           UaStatusCode.BadInternalError] := by
  have hne : Example.toWrite ≠ [] := by simp [Example.toWrite]
  refine ⟨hne, ?_⟩
  obtain ⟨⟨req, _, _, hlen, hget⟩, _⟩ := writeAttributes_one_outcome_per_entry Example.vc
    Example.writeOneResult 7 Example.nodeId Example.toWrite 0 hne
  have e0 := hget 0 _ rfl
  have e1 := hget 1 _ rfl
  apply List.ext_getElem?
  intro i
  rcases i with _ | _ | i
  · rw [e0]; rfl
  · rw [e1]; rfl
  · have h1 : (writeAttributes Example.vc Example.writeOneResult 7 Example.nodeId Example.toWrite
        0).signals.length ≤ i + 1 + 1 := by rw [hlen]; simp [Example.toWrite]
    rw [List.getElem?_eq_none h1]
    rfl

/-! ### Timestamps of read results -/

/-- C17: the guards of the two timestamps are swapped in `readAttributes`. A result that
carries a source timestamp only (1000) gives a `QOpcUaReadResult` with no source
timestamp and with the conversion of the server timestamp field, which the result does
not carry; a result that carries a server timestamp only gives one with the conversion
of the source timestamp field and no server timestamp. -/
theorem readAttributes_timestamp_guards_swapped :
    (readAttributes Example.vc Example.readSourceTimestampOnly 7 Example.nodeId
        NodeAttribute.Value "").signals
      = [Signal.attributesRead 7
          [{ attributeId := NodeAttribute.Value, value := QVariant.invalid,
             statusCode := UaStatusCode.Good, sourceTimestamp := none,
             serverTimestamp := some 0 }]
          UaStatusCode.Good] ∧
    (readAttributes Example.vc Example.readServerTimestampOnly 7 Example.nodeId
        NodeAttribute.Value "").signals
      = [Signal.attributesRead 7
          [{ attributeId := NodeAttribute.Value, value := QVariant.invalid,
             statusCode := UaStatusCode.Good, sourceTimestamp := some 0,
             serverTimestamp := none }]
          UaStatusCode.Good] := by
  constructor <;> rfl

/-- For every answered entry: the source timestamp of the read result is set exactly when
the server result carries a server timestamp, and the server timestamp exactly when it
carries a source timestamp. -/
theorem readResult_timestamps (vc : QOpen62541ValueConverter) (res : UA_ReadResponse) (i : Nat)
    (r : QOpcUaReadResult) (d : UA_DataValue) (hd : res.results[i]? = some d)
    (hr : r.sourceTimestamp = none ∧ r.serverTimestamp = none) :
    (readResult vc res i r).sourceTimestamp
      = (if d.hasServerTimestamp then some (vc.dateTimeToQt d.sourceTimestamp) else none) ∧
    (readResult vc res i r).serverTimestamp
      = (if d.hasSourceTimestamp then some (vc.dateTimeToQt d.serverTimestamp) else none) := by
  unfold readResult
  rw [hd]
  simp only
  obtain ⟨h1, h2⟩ := hr
  cases d.hasServerTimestamp <;> cases d.hasSourceTimestamp <;>
    cases (d.hasValue && d.value.data.isSome) <;> simp [h1, h2]

end Open62541AsyncBackend

namespace Open62541AsyncBackend

/-! ### Resolving browse paths -/

/-- C15 (amended): for every `resolveBrowsePath` request one translate request is sent
and one `resolveBrowsePathFinished` signal is emitted. When the service-level status is
not Good the signal carries an empty target list and that status. When the service-level
status is Good and the response carries exactly one result, the signal carries the
converted targets of that result, in order, and the status of that result, whether that
status is Good or not. -/
theorem resolveBrowsePath_outcome (vc : QOpen62541ValueConverter)
    (nodeIdFromQString : String → UA_NodeId) (fromUtf8 : List Nat → String)
    (translate : UA_TranslateBrowsePathsToNodeIdsRequest → UA_TranslateBrowsePathsToNodeIdsResponse)
    (handle : Nat) (startNode : UA_NodeId) (path : List QRelativePathElement) :
    ∃ req : UA_TranslateBrowsePathsToNodeIdsRequest,
      (resolveBrowsePath vc nodeIdFromQString fromUtf8 translate handle startNode path).calls
        = [TransportCall.service_translateBrowsePathsToNodeIds req] ∧
      ((translate req).serviceResult ≠ UaStatusCode.Good →
        (resolveBrowsePath vc nodeIdFromQString fromUtf8 translate handle startNode path).signals
          = [Signal.resolveBrowsePathFinished handle [] path (translate req).serviceResult]) ∧
      (∀ r0, (translate req).serviceResult = UaStatusCode.Good → (translate req).results = [r0] →
        (resolveBrowsePath vc nodeIdFromQString fromUtf8 translate handle startNode path).signals
          = [Signal.resolveBrowsePathFinished handle
              (r0.targets.map (convertBrowsePathTarget vc fromUtf8)) path r0.statusCode]) := by
  refine ⟨⟨[⟨startNode, path.map (relativePathElement nodeIdFromQString)⟩]⟩, ?_, ?_, ?_⟩
  · unfold resolveBrowsePath
    simp only
    split_ifs
    · rfl
    · split <;> rfl
  · intro hbad
    unfold resolveBrowsePath
    simp only
    rw [if_pos (Or.inl hbad)]
  · intro r0 hgood hres
    unfold resolveBrowsePath
    simp only
    rw [hres]
    have hn : ¬ ((translate
        ⟨[⟨startNode, path.map (relativePathElement nodeIdFromQString)⟩]⟩).serviceResult
          ≠ UaStatusCode.Good ∨ [r0].length ≠ 1) := by
      simp [hgood]
    rw [if_neg hn]

/-- C15 (as stated) fails: the response is Good at the service level and carries one
result whose status is `UncertainReferenceOutOfServer`, not Good, with a target:
`resolveBrowsePathFinished` carries the converted target together with that status, a
failing status with a non-empty target list. -/
theorem resolveBrowsePath_targets_with_failing_status :
    Example.UncertainReferenceOutOfServer ≠ UaStatusCode.Good ∧
    (resolveBrowsePath Example.vc Example.nodeIdFromQString Example.fromUtf8
        Example.translateOutOfServer 7
        Example.nodeId Example.path).signals
      = [Signal.resolveBrowsePathFinished 7
          [convertBrowsePathTarget Example.vc Example.fromUtf8 Example.browsePathTarget]
          Example.path
          Example.UncertainReferenceOutOfServer] :=
  ⟨by decide, rfl⟩

/-- A response that is Good at the service level and carries no result is reported with
an empty target list and status Good; one that fails at the service level with the
failing status. -/
theorem resolveBrowsePath_no_result :
    (resolveBrowsePath Example.vc Example.nodeIdFromQString Example.fromUtf8
        Example.translateNoResult 7
        Example.nodeId Example.path).signals
      = [Signal.resolveBrowsePathFinished 7 [] Example.path UaStatusCode.Good] ∧
    (resolveBrowsePath Example.vc Example.nodeIdFromQString Example.fromUtf8
        Example.translateNotConnected 7
        Example.nodeId Example.path).signals
      = [Signal.resolveBrowsePathFinished 7 [] Example.path
          UaStatusCode.BadServerNotConnected] :=
  ⟨rfl, rfl⟩

/-- The read of a namespace uri as a C string: a string without a zero byte that is
followed by a zero byte in memory is read whole, whatever follows. -/
theorem cString_terminated (bs rest : List Nat) (h : ∀ b ∈ bs, b ≠ 0) :
    UA_String.cString { length := bs.length, data := bs ++ 0 :: rest } = bs := by
  unfold UA_String.cString
  simp only
  induction bs with
  | nil => simp [List.takeWhile]
  | cons b bs ih =>
    have hb : b ≠ 0 := h b (List.mem_cons_self b bs)
    have ih1 := ih (fun c hc => h c (List.mem_cons_of_mem b hc))
    rw [List.cons_append, List.takeWhile_cons, if_pos (by simpa using hb), ih1]

/-- The namespace uri of a converted target on the examples: the terminated "uri" is
read whole, the five bytes with a zero byte in third place are cut to "ur". -/
theorem convertBrowsePathTarget_namespaceUri :
    (convertBrowsePathTarget Example.vc Example.fromUtf8
      Example.browsePathTarget).targetId.namespaceUri = "uri" ∧
    (convertBrowsePathTarget Example.vc Example.fromUtf8
      Example.browsePathTargetEmbeddedNul).targetId.namespaceUri = "ur" := by
  decide

section SharedSubscriptions

variable {τ : Type}

/-! ### `getSubscription` -/

theorem QHash_find_of_mem_nodup (m : QHash Nat QOpen62541Subscription)
    (e : Nat × QOpen62541Subscription) (h : e ∈ m) (hnd : (m.map Prod.fst).Nodup) :
    m.find e.1 = some e.2 := by
  induction m with
  | nil => simp at h
  | cons e1 m ih =>
    obtain ⟨k1, v1⟩ := e1
    simp only [List.map_cons, List.nodup_cons] at hnd
    simp only [QHash.find]
    rcases List.mem_cons.mp h with h | h
    · subst h
      simp
    · have hk : k1 ≠ e.1 := by
        intro hk
        apply hnd.1
        rw [hk]
        exact List.mem_map.mpr ⟨e, h, rfl⟩
      rw [if_neg hk]
      exact ih h hnd.2

/-- The result of `getSubscription` when a subscription is reused, when the server
refuses to create one and when one is created. -/
theorem getSubscription_cases (env : QOpcUaBackend) (T : Transport τ)
    (w : Open62541AsyncBackend τ) (settings : QOpcUaMonitoringParameters) :
    (settings.shared = SubscriptionType.Shared ∧
      ∃ e, e ∈ w.m_subscriptions ∧ isSharedMatch env w settings e = true ∧
        getSubscription env T w settings = (some e.1, w)) ∨
    ((settings.shared = SubscriptionType.Shared →
        ∀ e ∈ w.m_subscriptions, isSharedMatch env w settings e = false) ∧
      (T.createSubscription w.transport settings).1.1 = 0 ∧
      getSubscription env T w settings
        = (none, { w with transport := (T.createSubscription w.transport settings).2,
                          calls := w.calls ++ [TransportCall.subscriptions_create] })) ∨
    ((settings.shared = SubscriptionType.Shared →
        ∀ e ∈ w.m_subscriptions, isSharedMatch env w settings e = false) ∧
      (T.createSubscription w.transport settings).1.1 ≠ 0 ∧
      getSubscription env T w settings
        = (some (T.createSubscription w.transport settings).1.1,
           { w with transport := (T.createSubscription w.transport settings).2,
                    calls := w.calls ++ [TransportCall.subscriptions_create],
                    m_subscriptions := w.m_subscriptions.insert
                      (T.createSubscription w.transport settings).1.1
                      { interval := (T.createSubscription w.transport settings).1.2,
                        shared := settings.shared, items := [] },
                    m_minPublishingInterval :=
                      if (T.createSubscription w.transport settings).1.2
                          > settings.samplingInterval
                      then (T.createSubscription w.transport settings).1.2
                      else w.m_minPublishingInterval })) := by
  have hmatchfun : (fun entry : Nat × QOpen62541Subscription =>
      env.qFuzzyCompare entry.2.interval (env.revisePublishingInterval
        settings.publishingInterval w.m_minPublishingInterval)
        && decide (entry.2.shared = SubscriptionType.Shared))
      = isSharedMatch env w settings := rfl
  unfold getSubscription
  simp only [hmatchfun]
  by_cases hsh : settings.shared = SubscriptionType.Shared
  · rw [if_pos hsh]
    cases hf : List.find? (isSharedMatch env w settings) w.m_subscriptions with
    | some e =>
      left
      exact ⟨hsh, e, List.mem_of_find?_eq_some hf, List.find?_some hf, rfl⟩
    | none =>
      right
      have hno : ∀ e ∈ w.m_subscriptions, isSharedMatch env w settings e = false := by
        intro e he
        have := List.find?_eq_none.mp hf e he
        simpa using this
      by_cases h0 : (T.createSubscription w.transport settings).1.1 = 0
      · left
        exact ⟨fun _ => hno, h0, by simp only; rw [if_pos h0]⟩
      · right
        exact ⟨fun _ => hno, h0, by simp only; rw [if_neg h0]⟩
  · rw [if_neg hsh]
    right
    by_cases h0 : (T.createSubscription w.transport settings).1.1 = 0
    · left
      exact ⟨fun h => absurd h hsh, h0, by simp only; rw [if_pos h0]⟩
    · right
      exact ⟨fun h => absurd h hsh, h0, by simp only; rw [if_neg h0]⟩

/-- C13: a shared subscription is asked for. When the index holds an entry that is
shared and whose interval matches the revised requested publishing interval,
`getSubscription` returns such an entry of the index and changes nothing: no transport
call is made, nothing is created on the server, the index is the same. A transport call
(the creation of a subscription) is made only when no entry of the index is both shared
and interval-matching, and then it is made. -/
theorem getSubscription_reuses_shared (env : QOpcUaBackend) (T : Transport τ)
    (w : Open62541AsyncBackend τ) (settings : QOpcUaMonitoringParameters)
    (hshared : settings.shared = SubscriptionType.Shared) :
    ((∃ e, e ∈ w.m_subscriptions ∧ isSharedMatch env w settings e = true) →
      ∃ e, e ∈ w.m_subscriptions ∧ e.2.shared = SubscriptionType.Shared ∧
        env.qFuzzyCompare e.2.interval (env.revisePublishingInterval
          settings.publishingInterval w.m_minPublishingInterval) = true ∧
        getSubscription env T w settings = (some e.1, w) ∧
        ((w.m_subscriptions.map Prod.fst).Nodup → w.m_subscriptions.find e.1 = some e.2)) ∧
    ((getSubscription env T w settings).2.calls ≠ w.calls →
      ∀ e ∈ w.m_subscriptions, isSharedMatch env w settings e = false) ∧
    ((∀ e ∈ w.m_subscriptions, isSharedMatch env w settings e = false) →
      (getSubscription env T w settings).2.calls
        = w.calls ++ [TransportCall.subscriptions_create]) := by
  rcases getSubscription_cases env T w settings with
    ⟨_, e, he, hm, hr⟩ | ⟨hno, _, hr⟩ | ⟨hno, _, hr⟩
  · refine ⟨fun _ => ⟨e, he, ?_, ?_, hr, fun hnd => QHash_find_of_mem_nodup _ e he hnd⟩, ?_, ?_⟩
    · unfold isSharedMatch at hm
      simp only [Bool.and_eq_true, decide_eq_true_eq] at hm
      exact hm.2
    · unfold isSharedMatch at hm
      simp only [Bool.and_eq_true, decide_eq_true_eq] at hm
      exact hm.1
    · intro hc
      rw [hr] at hc
      exact absurd rfl hc
    · intro hnone
      rw [hnone e he] at hm
      cases hm
  · refine ⟨?_, fun _ => hno hshared, fun _ => by rw [hr]⟩
    rintro ⟨e, he, hm⟩
    rw [hno hshared e he] at hm
    cases hm
  · refine ⟨?_, fun _ => hno hshared, fun _ => by rw [hr]⟩
    rintro ⟨e, he, hm⟩
    rw [hno hshared e he] at hm
    cases hm

/-- C14 (amended): when `getSubscription` creates a subscription (it returns one and made
a transport call) whose revised interval exceeds the requested sampling interval, the
watermark afterwards is that revised interval, whatever the watermark was before; when
the revised interval does not exceed the sampling interval, and whenever no subscription
is created (one is reused, or the creation failed), the watermark is unchanged. -/
theorem getSubscription_watermark (env : QOpcUaBackend) (T : Transport τ)
    (w : Open62541AsyncBackend τ) (settings : QOpcUaMonitoringParameters) :
    ((getSubscription env T w settings).1 ≠ none →
      (getSubscription env T w settings).2.calls ≠ w.calls →
      (T.createSubscription w.transport settings).1.2 > settings.samplingInterval →
      (getSubscription env T w settings).2.m_minPublishingInterval
        = (T.createSubscription w.transport settings).1.2) ∧
    ((getSubscription env T w settings).1 ≠ none →
      (getSubscription env T w settings).2.calls ≠ w.calls →
      ¬ (T.createSubscription w.transport settings).1.2 > settings.samplingInterval →
      (getSubscription env T w settings).2.m_minPublishingInterval
        = w.m_minPublishingInterval) ∧
    (((getSubscription env T w settings).1 = none ∨
        (getSubscription env T w settings).2.calls = w.calls) →
      (getSubscription env T w settings).2.m_minPublishingInterval
        = w.m_minPublishingInterval) := by
  have hcalls : w.calls ++ [TransportCall.subscriptions_create] ≠ w.calls := by
    intro h
    have := congrArg List.length h
    simp at this
  rcases getSubscription_cases env T w settings with
    ⟨_, e, _, _, hr⟩ | ⟨_, _, hr⟩ | ⟨_, _, hr⟩
  · rw [hr]
    exact ⟨fun _ h => absurd rfl h, fun _ h => absurd rfl h, fun _ => rfl⟩
  · rw [hr]
    exact ⟨fun h => absurd rfl h, fun h => absurd rfl h, fun _ => rfl⟩
  · rw [hr]
    refine ⟨fun _ _ hgt => ?_, fun _ _ hle => ?_, ?_⟩
    · simp only
      rw [if_pos hgt]
    · simp only
      rw [if_neg hle]
    · rintro (h | h)
      · cases h
      · exact absurd h hcalls

/-- C14 (as stated) fails: on `watermark500` the watermark is 500. A subscription asked
for with 50 ms is created and revised by the server to 100 ms, which exceeds the sampling
interval 50, and the watermark afterwards is 100, below the watermark before. -/
theorem getSubscription_lowers_watermark :
    Example.watermark500.m_minPublishingInterval = 500 ∧
    (getSubscription Example.env Example.transportRounding Example.watermark500
      Example.settings50).1 = some 8 ∧
    (getSubscription Example.env Example.transportRounding Example.watermark500
      Example.settings50).2.m_subscriptions.find 8
      = some { interval := 100, shared := SubscriptionType.Exclusive, items := [] } ∧
    (100 : Int) > Example.settings50.samplingInterval ∧
    (getSubscription Example.env Example.transportRounding Example.watermark500
      Example.settings50).2.m_minPublishingInterval = 100 ∧
    ¬ ((getSubscription Example.env Example.transportRounding Example.watermark500
      Example.settings50).2.m_minPublishingInterval
        ≥ Example.watermark500.m_minPublishingInterval) := by
  decide

/-- Instance of C13: on `monitoring` a shared subscription with 100 ms is asked for and
subscription 7, shared with 100 ms, is returned without any change of the state. -/
theorem getSubscription_reuses_shared_witness :
    Example.settings.shared = SubscriptionType.Shared ∧
    (∃ e, e ∈ Example.monitoring.m_subscriptions ∧
      isSharedMatch Example.env Example.monitoring Example.settings e = true) ∧
    (getSubscription Example.env Example.transportOk Example.monitoring Example.settings).1
      = some 7 ∧
    (getSubscription Example.env Example.transportOk Example.monitoring Example.settings).2.calls
      = Example.monitoring.calls := by
  have hex : ∃ e, e ∈ Example.monitoring.m_subscriptions ∧
      isSharedMatch Example.env Example.monitoring Example.settings e = true :=
    ⟨(7, { interval := 100, shared := SubscriptionType.Shared,
           items := [(1, NodeAttribute.DisplayName), (1, NodeAttribute.Value)] }),
     by decide, by decide⟩
  refine ⟨rfl, hex, ?_, ?_⟩
  · obtain ⟨e, he, _, _, hr, _⟩ := (getSubscription_reuses_shared Example.env Example.transportOk
      Example.monitoring Example.settings rfl).1 hex
    rw [hr]
    have h7 : Example.monitoring.m_subscriptions
        = [(7, { interval := 100, shared := SubscriptionType.Shared,
                 items := [(1, NodeAttribute.DisplayName), (1, NodeAttribute.Value)] })] := by
      decide
    rw [h7] at he
    simp only [List.mem_singleton] at he
    rw [he]
  · obtain ⟨e, _, _, _, hr, _⟩ := (getSubscription_reuses_shared Example.env Example.transportOk
      Example.monitoring Example.settings rfl).1 hex
    rw [hr]

end SharedSubscriptions

end Open62541AsyncBackend

namespace Open62541AsyncBackend

section DuplicateCalls

variable {τ : Type}

/-! ### Transport calls of a request that names registered pairs only -/

end DuplicateCalls

end Open62541AsyncBackend

namespace Open62541AsyncBackend

section RegisteredPair

variable {τ : Type}

/-! ### A second registration of a registered pair -/

end RegisteredPair

end Open62541AsyncBackend
